import Mathlib

/-
Verification development for the camera target coordinator of the Viewer
widget (src/modules/exts/Viewer.js).  The JavaScript is shallowly embedded:
the single-threaded, frame-driven execution is modelled as a step function
over an explicit state record, with the scheduling freedom of promise
microtasks, render passes, readiness settlements and flight callbacks
exposed as an event alphabet.  External engine services (bounding-sphere
queries, data-source display updates) are supplied per event as finite
environments.  Resolver invocations of the pending zoom promise and camera
movement primitives are recorded as traces so that temporal statements can
be settled on concrete runs.
-/

namespace DCSDK

/-- Scene projection modes (Cesium SceneMode), as tested by the Viewer code. -/
inductive SceneMode where
  | morphing
  | scene2D
  | scene3D
  | columbusView
deriving DecidableEq

/-- An entity as far as the coordinator reads it.  The field oid is a
surrogate for JavaScript object identity (the triple-equals comparisons in
the source), eid models the id property used by EntityCollection.getById,
and position models the position property: none when the property is
absent, some pv when present with current value pv (pv itself optional,
matching Property.getValueOrUndefined). -/
structure Entity where
  oid : Nat
  eid : Nat
  position : Option (Option Nat)
deriving DecidableEq

/-- An entity collection: its values array and getById lookup. -/
structure EntityCollection where
  ecid : Nat
  values : List Entity
deriving DecidableEq

/-- EntityCollection.getById: the entity whose id matches, if any. -/
def EntityCollection.getById (c : EntityCollection) (id : Nat) : Option Entity :=
  c.values.find? (fun e => e.eid == id)

/-- A data source: entity collection plus loading state, as read by
zoomToOrFly (isLoading and loadingEvent). -/
structure DataSource where
  dsid : Nat
  entities : EntityCollection
  isLoading : Bool
  hasLoadingEvent : Bool
deriving DecidableEq

/-- The three volumetric target classes distinguished by instanceof checks
in zoomToOrFly and updateZoomTarget. -/
inductive VolKind where
  | cesium3DTileset
  | voxelPrimitive
  | timeDynamicPointCloud
deriving DecidableEq

/-- Bounding spheres are opaque engine values: prim sid is a sphere
returned by dataSourceDisplay.getBoundingSphere or owned by a volumetric
target, and combined sids stands for the external
BoundingSphere.fromBoundingSpheres applied to the listed prim spheres. -/
inductive BSphere where
  | prim (sid : Nat)
  | combined (sids : List Nat)
deriving DecidableEq

/-- A volumetric target (Cesium3DTileset, VoxelPrimitive or
TimeDynamicPointCloud): identity of its readiness promise and its
boundingSphere property. -/
structure Volumetric where
  vid : Nat
  kind : VolKind
  sphere : BSphere
deriving DecidableEq

/-- HeadingPitchRange offsets: either one supplied by the caller, kept
opaque, or the default new HeadingPitchRange(0, -0.5, radius) built from a
bounding sphere in the volumetric branches. -/
inductive HPR where
  | explicitOffset (n : Nat)
  | defaultOf (s : BSphere)
deriving DecidableEq

/-- The options bag of zoomTo and flyTo: offset, duration, maximumHeight. -/
structure ZoomOptionsV where
  offset : Option HPR
  duration : Option Nat
  maximumHeight : Option Nat
deriving DecidableEq

/-- The empty options object used by defaultValue(viewer._zoomOptions, {}). -/
def ZoomOptionsV.empty : ZoomOptionsV := ⟨none, none, none⟩

/-- The normalized zoom target stored in viewer._zoomTarget: a volumetric
object kept opaque, a viewing position produced from an imagery rectangle
(a Cartographic in the source), or a snapshot list of entities. -/
inductive ZoomTarget where
  | volumetric (v : Volumetric)
  | position (dest : Nat)
  | entities (l : List Entity)
deriving DecidableEq

/-- A raw target passed to zoomTo or flyTo before normalization.  The
imagery-layer branch of zoomToOrFly is not modelled (none of the verified
claims constructs an imagery target); arrayTarget r refers to a mutable
caller-owned array held in the heap component of the state, so that the
slice(0) snapshot semantics is observable. -/
inductive RawTarget where
  | volumetric (v : Volumetric)
  | arrayTarget (r : Nat)
  | entityCollection (ec : EntityCollection)
  | dataSource (ds : DataSource)
  | singleEntity (e : Entity)
deriving DecidableEq

/-- Camera movement primitives invoked by the coordinator, recorded as a
trace.  lookAtTransformIdentity records camera.lookAtTransform applied to
Matrix4.IDENTITY, the only transform the source ever sets. -/
inductive CameraOp where
  | viewBoundingSphere (s : BSphere) (offset : Option HPR)
  | flyToBoundingSphere (s : BSphere) (offset : Option HPR)
      (duration : Option Nat) (maximumHeight : Option Nat) (fid : Nat)
  | setView (dest : Nat)
  | flyTo (dest : Nat) (duration : Option Nat) (maximumHeight : Option Nat) (fid : Nat)
  | lookAtTransformIdentity
deriving DecidableEq

/-- A continuation attached to a volumetric readiness promise by a render
pass of updateZoomTarget: the promise identity, whether the chain carries a
catch handler (the Cesium3DTileset and VoxelPrimitive branch does, the
TimeDynamicPointCloud branch does not), the captured target and the
captured zoomOptions value. -/
structure ReadyCont where
  vid : Nat
  withCatch : Bool
  target : Volumetric
  captured : ZoomOptionsV
deriving DecidableEq

/-- Result of dataSourceDisplay.getBoundingSphere for one entity. -/
inductive BSRes where
  | pending
  | done (sid : Nat)
  | failed
deriving DecidableEq

/-- A per-pass bounding-sphere environment: finite table from entities to
query results, defaulting to PENDING for entities not listed. -/
def BSEnv := List (Entity × BSRes)

/-- Query the environment for one entity. -/
def BSEnv.query (env : BSEnv) (e : Entity) : BSRes :=
  ((env.find? (fun p => p.1 == e)).map (fun p => p.2)).getD BSRes.pending

/-- The state of one Viewer plus the modelled slice of its world: pending
zoom bookkeeping, resolver-invocation and camera traces, tracked and
selected entity state, scene control flags, registered asynchronous
continuations, and the heap of caller-owned arrays.  Initial values follow
the constructor (lines 239 to 249 of Viewer.js). -/
structure ViewerState where
  zoomPromise : Option Nat
  completeId : Nat
  nextPromiseId : Nat
  zoomIsFlight : Bool
  zoomOptions : Option ZoomOptionsV
  zoomTarget : Option ZoomTarget
  invocations : List (Nat × Bool)
  normTasks : List (Nat × RawTarget)
  loadListeners : List (Nat × DataSource)
  readyConts : List ReadyCont
  flights : List Nat
  nextFlightId : Nat
  cameraOps : List CameraOp
  trackedEntity : Option Entity
  needTrackedEntityUpdate : Bool
  entityView : Option Entity
  entityViewUpdates : List (Option BSphere)
  selectedEntity : Option Entity
  sceneMode : SceneMode
  enableTranslate : Bool
  enableTilt : Bool
  requestRenderCount : Nat
  trackedEntityChangedEvents : List (Option Entity)
  selectedEntityChangedEvents : List (Option Entity)
  unhandledRejections : Nat
  heap : List (Nat × List Entity)
  allowSuspend : Bool
  clockCanAnimate : Bool
deriving DecidableEq

/-- The freshly constructed Viewer (constructor field initializations). -/
def initState : ViewerState where
  zoomPromise := none
  completeId := 0
  nextPromiseId := 1
  zoomIsFlight := false
  zoomOptions := none
  zoomTarget := none
  invocations := []
  normTasks := []
  loadListeners := []
  readyConts := []
  flights := []
  nextFlightId := 1
  cameraOps := []
  trackedEntity := none
  needTrackedEntityUpdate := false
  entityView := none
  entityViewUpdates := []
  selectedEntity := none
  sceneMode := SceneMode.scene3D
  enableTranslate := true
  enableTilt := true
  requestRenderCount := 0
  trackedEntityChangedEvents := []
  selectedEntityChangedEvents := []
  unhandledRejections := 0
  heap := []
  allowSuspend := true
  clockCanAnimate := true

/-- Invoke viewer._completeZoom(value): the resolver currently installed on
the viewer is called.  The invocation is recorded against completeId, the
identity of the promise that resolver belongs to. -/
def completeZoomInvoke (value : Bool) (s : ViewerState) : ViewerState :=
  { s with invocations := s.invocations ++ [(s.completeId, value)] }

/-- clearZoom: drop the pending promise pointer, target and options.  The
resolver pointer _completeZoom is intentionally not cleared, exactly as in
the source. -/
def clearZoom (s : ViewerState) : ViewerState :=
  { s with zoomPromise := none, zoomTarget := none, zoomOptions := none }

/-- cancelZoom: if a zoom promise is installed, clear the pending request
and invoke the resolver with false. -/
def cancelZoom (s : ViewerState) : ViewerState :=
  match s.zoomPromise with
  | none => s
  | some _ => completeZoomInvoke false (clearZoom s)

/-- The trackedEntity property setter (Viewer.js lines 622 to 660):
idempotent on equal assignment, otherwise cancels any pending zoom, then
either tears tracking down (value absent or without a position property)
or flags the pending-first-fix state, and finally raises the changed event
and requests a render. -/
def setTrackedEntity (value : Option Entity) (s : ViewerState) : ViewerState :=
  if s.trackedEntity = value then s
  else
    let s1 := cancelZoom { s with trackedEntity := value }
    let stopTracking : Bool :=
      match value with
      | none => true
      | some e => e.position.isNone
    let s2 :=
      if stopTracking then
        let sa := { s1 with needTrackedEntityUpdate := false }
        let sb :=
          if sa.sceneMode = SceneMode.columbusView ∨ sa.sceneMode = SceneMode.scene2D then
            { sa with enableTranslate := true }
          else sa
        let sc :=
          if sb.sceneMode = SceneMode.columbusView ∨ sb.sceneMode = SceneMode.scene3D then
            { sb with enableTilt := true }
          else sb
        { sc with entityView := none,
                  cameraOps := sc.cameraOps ++ [CameraOp.lookAtTransformIdentity] }
      else
        { s1 with needTrackedEntityUpdate := true }
    { s2 with trackedEntityChangedEvents := s2.trackedEntityChangedEvents ++ [value],
              requestRenderCount := s2.requestRenderCount + 1 }

/-- The selectedEntity property setter: assign and raise the changed event
only when the value differs. -/
def setSelectedEntity (value : Option Entity) (s : ViewerState) : ViewerState :=
  if s.selectedEntity = value then s
  else
    { s with selectedEntity := value,
             selectedEntityChangedEvents := s.selectedEntityChangedEvents ++ [value] }

/-- The synchronous precondition failure of zoomToOrFly. -/
inductive DevError where
  | zoomTargetRequired
deriving DecidableEq

/-- zoomToOrFly (Viewer.js lines 1067 to 1178), synchronous part: a missing
target throws before any state is touched; otherwise any pending request is
cancelled, a fresh promise and resolver are installed together with the
flight flag and options, the asynchronous normalization of the raw target
is queued as a microtask, and a render is requested. -/
def zoomToOrFly (zoomTarget : Option RawTarget) (options : Option ZoomOptionsV)
    (isFlight : Bool) (s : ViewerState) : Except DevError ViewerState :=
  match zoomTarget with
  | none => Except.error DevError.zoomTargetRequired
  | some tgt =>
    let s1 := cancelZoom s
    let pid := s1.nextPromiseId
    Except.ok { s1 with
      completeId := pid
      zoomPromise := some pid
      nextPromiseId := pid + 1
      zoomIsFlight := isFlight
      zoomOptions := options
      normTasks := s1.normTasks ++ [(pid, tgt)]
      requestRenderCount := s1.requestRenderCount + 1 }

/-- Viewer.prototype.zoomTo: wraps the offset into a fresh options object. -/
def zoomTo (target : Option RawTarget) (offset : Option HPR) (s : ViewerState) :
    Except DevError ViewerState :=
  zoomToOrFly target (some ⟨offset, none, none⟩) false s

/-- Viewer.prototype.flyTo: passes the options through, possibly absent. -/
def flyTo (target : Option RawTarget) (options : Option ZoomOptionsV) (s : ViewerState) :
    Except DevError ViewerState :=
  zoomToOrFly target options true s

/-- Read a caller-owned array from the heap (empty if unallocated). -/
def heapGet (heap : List (Nat × List Entity)) (r : Nat) : List Entity :=
  ((heap.find? (fun p => p.1 == r)).map (fun p => p.2)).getD []

/-- Overwrite a caller-owned array in the heap. -/
def heapSet (heap : List (Nat × List Entity)) (r : Nat) (l : List Entity) :
    List (Nat × List Entity) :=
  (r, l) :: heap

/-- The microtask body queued by zoomToOrFly for one raw target: dropped
when a newer request superseded the promise; a volumetric target is stored
opaquely; a still-loading data source registers a loadingEvent listener; an
array is snapshot with slice(0), read from the heap at normalization time;
an entity collection contributes its values array; a loaded data source its
entities values; a single entity becomes a one-element list. -/
def runNormalizeTask (s : ViewerState) : ViewerState :=
  match s.normTasks with
  | [] => s
  | (pid, tgt) :: rest =>
    let s1 := { s with normTasks := rest }
    if s1.zoomPromise ≠ some pid then s1
    else
      match tgt with
      | RawTarget.volumetric v => { s1 with zoomTarget := some (ZoomTarget.volumetric v) }
      | RawTarget.dataSource ds =>
          if ds.isLoading && ds.hasLoadingEvent then
            { s1 with loadListeners := s1.loadListeners ++ [(pid, ds)] }
          else
            { s1 with zoomTarget := some (ZoomTarget.entities ds.entities.values) }
      | RawTarget.arrayTarget r =>
          { s1 with zoomTarget := some (ZoomTarget.entities (heapGet s1.heap r)) }
      | RawTarget.entityCollection ec =>
          { s1 with zoomTarget := some (ZoomTarget.entities ec.values) }
      | RawTarget.singleEntity e =>
          { s1 with zoomTarget := some (ZoomTarget.entities [e]) }

/-- Run the listeners registered on a loadingEvent that has fired: each
removes itself and, if its promise is still the installed one, snapshots
the entity values of the data source. -/
def runLoadListeners : List (Nat × DataSource) → ViewerState → ViewerState
  | [], s => s
  | (pid, ds) :: rest, s =>
    let s1 :=
      if s.zoomPromise = some pid then
        { s with zoomTarget := some (ZoomTarget.entities ds.entities.values) }
      else s
    runLoadListeners rest s1

/-- A data source finished loading: fire and remove its listeners. -/
def stepDataSourceLoaded (dsid : Nat) (s : ViewerState) : ViewerState :=
  let matching := s.loadListeners.filter (fun p => p.2.dsid == dsid)
  runLoadListeners matching { s with loadListeners := s.loadListeners.filter (fun p => !(p.2.dsid == dsid)) }

/-- Poll the bounding-sphere state of every entity of a list target (the
loop of updateZoomTarget, lines 1323 to 1336): none when any entity is
still PENDING (the pass is aborted with no partial commit), otherwise the
sphere identifiers of the entities that did not FAIL, in order. -/
def pollBoundingSpheres (env : BSEnv) : List Entity → Option (List Nat)
  | [] => some []
  | e :: rest =>
    match BSEnv.query env e with
    | BSRes.pending => none
    | BSRes.failed => pollBoundingSpheres env rest
    | BSRes.done sid => (pollBoundingSpheres env rest).map (fun sids => sid :: sids)

/-- The sphere identifiers of the entities whose query reports DONE, in
list order.  When no entity is PENDING this is what pollBoundingSpheres
collects. -/
def doneSids (env : BSEnv) (l : List Entity) : List Nat :=
  l.filterMap (fun e =>
    match BSEnv.query env e with
    | BSRes.done sid => some sid
    | _ => none)

/-- Settlement of an entity-list target on one render pass (lines 1321 to
1366): abort on any PENDING entity; cancel when no usable sphere remains;
otherwise break tracking through the trackedEntity setter, merge the
collected spheres, and either snap the camera (view, reset transform, clear,
resolve true) or clear and start a flight whose callbacks invoke the
resolver later. -/
def settleEntities (env : BSEnv) (zoomOptions : ZoomOptionsV) (l : List Entity)
    (s : ViewerState) : ViewerState :=
  match pollBoundingSpheres env l with
  | none => s
  | some sids =>
    if sids.isEmpty then cancelZoom s
    else
      let s1 := setTrackedEntity none s
      let bs := BSphere.combined sids
      if !s1.zoomIsFlight then
        completeZoomInvoke true (clearZoom
          { s1 with cameraOps := s1.cameraOps ++
              [CameraOp.viewBoundingSphere bs zoomOptions.offset,
               CameraOp.lookAtTransformIdentity] })
      else
        let s2 := clearZoom s1
        { s2 with
          flights := s2.flights ++ [s2.nextFlightId]
          nextFlightId := s2.nextFlightId + 1
          cameraOps := s2.cameraOps ++
            [CameraOp.flyToBoundingSphere bs zoomOptions.offset
              zoomOptions.duration zoomOptions.maximumHeight s2.nextFlightId] }

/-- Settlement of a position target (the Cartographic branch, lines 1297 to
1319): flight mode starts a camera flight and clears; snap mode sets the
view, resolves true and clears. -/
def settlePosition (zoomOptions : ZoomOptionsV) (dest : Nat) (s : ViewerState) :
    ViewerState :=
  if s.zoomIsFlight then
    clearZoom
      { s with
        flights := s.flights ++ [s.nextFlightId]
        nextFlightId := s.nextFlightId + 1
        cameraOps := s.cameraOps ++
          [CameraOp.flyTo dest zoomOptions.duration zoomOptions.maximumHeight s.nextFlightId] }
  else
    clearZoom (completeZoomInvoke true
      { s with cameraOps := s.cameraOps ++ [CameraOp.setView dest] })

/-- Whether the readiness chain of a volumetric branch carries a catch
handler: the Cesium3DTileset and VoxelPrimitive branch ends in catch, the
TimeDynamicPointCloud branch does not (lines 1213 to 1294). -/
def kindHasCatch : VolKind → Bool
  | VolKind.timeDynamicPointCloud => false
  | _ => true

/-- One render pass of updateZoomTarget (lines 1201 to 1367): nothing to do
without a target or while the scene is morphing; a volumetric target
attaches a readiness continuation capturing the current zoomOptions value;
a position target and an entity-list target settle immediately. -/
def updateZoomTarget (env : BSEnv) (s : ViewerState) : ViewerState :=
  match s.zoomTarget with
  | none => s
  | some target =>
    if s.sceneMode = SceneMode.morphing then s
    else
      let zoomOptions := s.zoomOptions.getD ZoomOptionsV.empty
      match target with
      | ZoomTarget.volumetric v =>
          { s with readyConts := s.readyConts ++
              [⟨v.vid, kindHasCatch v.kind, v, zoomOptions⟩] }
      | ZoomTarget.position dest => settlePosition zoomOptions dest s
      | ZoomTarget.entities l => settleEntities env zoomOptions l s

/-- The then-body shared by the volumetric readiness chains: default the
offset to HeadingPitchRange(0, -0.5, radius) when none was captured, then
fly to or snap onto the target bounding sphere, resolving through the
resolver installed on the viewer at firing time, and clear the request. -/
def runVolumetricReady (c : ReadyCont) (s : ViewerState) : ViewerState :=
  let boundingSphere := c.target.sphere
  let offset := c.captured.offset.getD (HPR.defaultOf boundingSphere)
  if s.zoomIsFlight then
    clearZoom
      { s with
        flights := s.flights ++ [s.nextFlightId]
        nextFlightId := s.nextFlightId + 1
        cameraOps := s.cameraOps ++
          [CameraOp.flyToBoundingSphere boundingSphere (some offset)
            c.captured.duration c.captured.maximumHeight s.nextFlightId] }
  else
    clearZoom (completeZoomInvoke true
      { s with cameraOps := s.cameraOps ++
          [CameraOp.viewBoundingSphere boundingSphere (some offset),
           CameraOp.lookAtTransformIdentity] })

/-- Run one readiness continuation on settlement of its promise: the then
body on success; on rejection, the catch handler cancels the request where
present (Cesium3DTileset, VoxelPrimitive), and the rejection is left
unhandled for TimeDynamicPointCloud. -/
def runReadyCont (ok : Bool) (c : ReadyCont) (s : ViewerState) : ViewerState :=
  if ok then runVolumetricReady c s
  else if c.withCatch then cancelZoom s
  else { s with unhandledRejections := s.unhandledRejections + 1 }

/-- Run a list of readiness continuations in registration order. -/
def runReadyConts (ok : Bool) : List ReadyCont → ViewerState → ViewerState
  | [], s => s
  | c :: rest, s => runReadyConts ok rest (runReadyCont ok c s)

/-- A volumetric readiness promise settles: all continuations registered on
it fire once, in order, and are removed. -/
def stepReadySettle (vid : Nat) (ok : Bool) (s : ViewerState) : ViewerState :=
  let matching := s.readyConts.filter (fun c => c.vid == vid)
  runReadyConts ok matching { s with readyConts := s.readyConts.filter (fun c => !(c.vid == vid)) }

/-- A camera flight ends: the engine fires the complete or cancel callback
of the flight, which invokes whatever resolver is installed on the viewer
at that moment (the closures in the source read viewer._completeZoom at
call time). -/
def stepFlightEnd (fid : Nat) (value : Bool) (s : ViewerState) : ViewerState :=
  if s.flights.contains fid then
    completeZoomInvoke value { s with flights := s.flights.filter (fun f => !(f == fid)) }
  else s

/-- updateTrackedEntity (lines 1369 to 1424): while the pending-first-fix
flag is set, wait for a defined current position and a non-PENDING
bounding-sphere query, then disable the projection-appropriate controls,
build the follower helper and update it once (with an undefined sphere on
FAILED), and clear the flag. -/
def updateTrackedEntity (env : BSEnv) (s : ViewerState) : ViewerState :=
  if !s.needTrackedEntityUpdate then s
  else
    match s.trackedEntity with
    | none => s
    | some trackedEntity =>
      let currentPosition := trackedEntity.position.bind id
      if currentPosition.isNone then s
      else
        match BSEnv.query env trackedEntity with
        | BSRes.pending => s
        | st =>
          let sa :=
            if s.sceneMode = SceneMode.columbusView ∨ s.sceneMode = SceneMode.scene2D then
              { s with enableTranslate := false }
            else s
          let sb :=
            if sa.sceneMode = SceneMode.columbusView ∨ sa.sceneMode = SceneMode.scene3D then
              { sa with enableTilt := false }
            else sa
          let bs : Option BSphere :=
            match st with
            | BSRes.done sid => some (BSphere.prim sid)
            | _ => none
          { sb with entityView := some trackedEntity,
                    entityViewUpdates := sb.entityViewUpdates ++ [bs],
                    needTrackedEntityUpdate := false }

/-- Viewer.prototype._postRender: settle the zoom request, then the
tracked-entity first fix. -/
def postRender (env : BSEnv) (s : ViewerState) : ViewerState :=
  updateTrackedEntity env (updateZoomTarget env s)

/-- The follower-update block of Viewer.prototype._onTick (lines 866 to
909): while a follower helper exists, update it only when the
bounding-sphere query of the tracked entity reports DONE.  The trailing
selection-highlight block of the source computes only local values that are
never consumed and is not modelled; the data-source display update block
precedes this one in onTick below. -/
def onTickFollower (env : BSEnv) (s : ViewerState) : ViewerState :=
  match s.entityView, s.trackedEntity with
  | some _, some trackedEntity =>
    match BSEnv.query env trackedEntity with
    | BSRes.done sid =>
        { s with entityViewUpdates := s.entityViewUpdates ++ [some (BSphere.prim sid)] }
    | _ => s
  | _, _ => s

/-- Viewer.prototype._onTick, both blocks in source order. -/
def onTick (env : BSEnv) (isUpdated : Bool) (s : ViewerState) : ViewerState :=
  onTickFollower env (if s.allowSuspend then { s with clockCanAnimate := isUpdated } else s)

/-- The tracked-entity clearing block of Viewer.prototype._dataSourceRemoved
(lines 836 to 861): after the external listener bookkeeping (not modelled),
clear tracking when the collection of the removed source yields the tracked
entity by its id as the same object. -/
def dataSourceRemovedTrackedPhase (ds : DataSource) (s : ViewerState) : ViewerState :=
  match s.trackedEntity with
  | some trackedEntity =>
      if ds.entities.getById trackedEntity.eid = some trackedEntity then
        setTrackedEntity none s
      else s
  | none => s

/-- The selected-entity clearing block of _dataSourceRemoved. -/
def dataSourceRemovedSelectedPhase (ds : DataSource) (s : ViewerState) : ViewerState :=
  match s.selectedEntity with
  | some selectedEntity =>
      if ds.entities.getById selectedEntity.eid = some selectedEntity then
        setSelectedEntity none s
      else s
  | none => s

/-- Viewer.prototype._dataSourceRemoved, both blocks in source order. -/
def dataSourceRemoved (ds : DataSource) (s : ViewerState) : ViewerState :=
  dataSourceRemovedSelectedPhase ds (dataSourceRemovedTrackedPhase ds s)

/-- The per-removed-object body of Viewer.prototype._onEntityCollectionChanged. -/
def collectionChangedStep (removedObject : Entity) (s : ViewerState) : ViewerState :=
  let s1 := if s.trackedEntity = some removedObject then setTrackedEntity none s else s
  if s1.selectedEntity = some removedObject then setSelectedEntity none s1 else s1

/-- Viewer.prototype._onEntityCollectionChanged (lines 914 to 929). -/
def onEntityCollectionChanged (removed : List Entity) (s : ViewerState) : ViewerState :=
  removed.foldl (fun s r => collectionChangedStep r s) s

/-- The event alphabet of the embedded execution: the public calls, the
scheduling points of the asynchronous machinery, the engine notifications,
and mutation of a caller-owned array. -/
inductive Ev where
  | callZoomTo (target : Option RawTarget) (offset : Option HPR)
  | callFlyTo (target : Option RawTarget) (options : Option ZoomOptionsV)
  | normalizeNext
  | renderPass (env : BSEnv)
  | readySettle (vid : Nat) (ok : Bool)
  | flightComplete (fid : Nat)
  | flightCancel (fid : Nat)
  | clockTick (env : BSEnv) (isUpdated : Bool)
  | assignTracked (value : Option Entity)
  | assignSelected (value : Option Entity)
  | removeDataSource (ds : DataSource)
  | collectionChanged (removed : List Entity)
  | dataSourceLoaded (dsid : Nat)
  | mutateArray (r : Nat) (l : List Entity)

/-- One execution step.  A zoomTo or flyTo call with a missing target
throws to the caller and leaves the state untouched. -/
def step (ev : Ev) (s : ViewerState) : ViewerState :=
  match ev with
  | Ev.callZoomTo target offset =>
      match zoomTo target offset s with
      | Except.ok s1 => s1
      | Except.error _ => s
  | Ev.callFlyTo target options =>
      match flyTo target options s with
      | Except.ok s1 => s1
      | Except.error _ => s
  | Ev.normalizeNext => runNormalizeTask s
  | Ev.renderPass env => postRender env s
  | Ev.readySettle vid ok => stepReadySettle vid ok s
  | Ev.flightComplete fid => stepFlightEnd fid true s
  | Ev.flightCancel fid => stepFlightEnd fid false s
  | Ev.clockTick env isUpdated => onTick env isUpdated s
  | Ev.assignTracked value => setTrackedEntity value s
  | Ev.assignSelected value => setSelectedEntity value s
  | Ev.removeDataSource ds => dataSourceRemoved ds s
  | Ev.collectionChanged removed => onEntityCollectionChanged removed s
  | Ev.dataSourceLoaded dsid => stepDataSourceLoaded dsid s
  | Ev.mutateArray r l => { s with heap := heapSet s.heap r l }

/-- Run a list of events from a state. -/
def run (evs : List Ev) (s : ViewerState) : ViewerState :=
  evs.foldl (fun s e => step e s) s

/-- All recorded invocations of the resolver belonging to promise p. -/
def invocationsFor (p : Nat) (s : ViewerState) : List (Nat × Bool) :=
  s.invocations.filter (fun i => i.1 == p)

/-- The settlement of promise p: the value of its first resolver
invocation, if any (a JavaScript promise ignores later invocations). -/
def settles (p : Nat) (s : ViewerState) : Option Bool :=
  (s.invocations.find? (fun i => i.1 == p)).map (fun i => i.2)

/-- Whether an event is a successful requestView call (a zoomTo or flyTo
with a present target; absent-target calls throw and create no promise). -/
def isCallEv : Ev → Bool
  | Ev.callZoomTo (some _) _ => true
  | Ev.callFlyTo (some _) _ => true
  | _ => false

/-- The number of successful requestView calls in a trace.  Promise
identifiers are handed out sequentially from 1, so from the initial state
the last call of a trace owns promise number callCount. -/
def callCount (evs : List Ev) : Nat :=
  (evs.filter isCallEv).length

/-- The promises that were already created but still unresolved at the
moment a later requestView call was made, collected along a run. -/
def traceObligations : List Ev → ViewerState → List Nat
  | [], _ => []
  | ev :: rest, s =>
    (if isCallEv ev then
       (List.range s.nextPromiseId).filter (fun q => decide (1 ≤ q) && (settles q s).isNone)
     else []) ++ traceObligations rest (step ev s)

/-- The literal reading of the sequencing claim for a trace from the
initial state: only the last call settles true, and every promise that was
still unresolved when a later call was made settles false. -/
def RequestViewSequencingSpec (evs : List Ev) : Prop :=
  (∀ p, settles p (run evs initState) = some true → p = callCount evs) ∧
  (∀ p ∈ traceObligations evs initState, settles p (run evs initState) = some false)

/-- The entities a pending entity-list request polls on each render pass. -/
def polledEntities (s : ViewerState) : List Entity :=
  match s.zoomTarget with
  | some (ZoomTarget.entities l) => l
  | _ => []

/-! Basic lemmas about the zoom bookkeeping helpers. -/

theorem cancelZoom_of_none (s : ViewerState) (h : s.zoomPromise = none) :
    cancelZoom s = s := by
  unfold cancelZoom
  rw [h]

theorem cancelZoom_of_some (s : ViewerState) (p : Nat) (h : s.zoomPromise = some p) :
    cancelZoom s = completeZoomInvoke false (clearZoom s) := by
  unfold cancelZoom
  rw [h]

theorem cancelZoom_heap (s : ViewerState) : (cancelZoom s).heap = s.heap := by
  cases h : s.zoomPromise <;> simp [cancelZoom, h, completeZoomInvoke, clearZoom]

theorem cancelZoom_normTasks (s : ViewerState) : (cancelZoom s).normTasks = s.normTasks := by
  cases h : s.zoomPromise <;> simp [cancelZoom, h, completeZoomInvoke, clearZoom]

theorem cancelZoom_nextPromiseId (s : ViewerState) :
    (cancelZoom s).nextPromiseId = s.nextPromiseId := by
  cases h : s.zoomPromise <;> simp [cancelZoom, h, completeZoomInvoke, clearZoom]

theorem cancelZoom_completeId (s : ViewerState) : (cancelZoom s).completeId = s.completeId := by
  cases h : s.zoomPromise <;> simp [cancelZoom, h, completeZoomInvoke, clearZoom]

theorem cancelZoom_cameraOps (s : ViewerState) : (cancelZoom s).cameraOps = s.cameraOps := by
  cases h : s.zoomPromise <;> simp [cancelZoom, h, completeZoomInvoke, clearZoom]

theorem cancelZoom_trackedEntity (s : ViewerState) :
    (cancelZoom s).trackedEntity = s.trackedEntity := by
  cases h : s.zoomPromise <;> simp [cancelZoom, h, completeZoomInvoke, clearZoom]

theorem cancelZoom_selectedEntity (s : ViewerState) :
    (cancelZoom s).selectedEntity = s.selectedEntity := by
  cases h : s.zoomPromise <;> simp [cancelZoom, h, completeZoomInvoke, clearZoom]

theorem cancelZoom_sceneMode (s : ViewerState) : (cancelZoom s).sceneMode = s.sceneMode := by
  cases h : s.zoomPromise <;> simp [cancelZoom, h, completeZoomInvoke, clearZoom]

theorem cancelZoom_needTrackedEntityUpdate (s : ViewerState) :
    (cancelZoom s).needTrackedEntityUpdate = s.needTrackedEntityUpdate := by
  cases h : s.zoomPromise <;> simp [cancelZoom, h, completeZoomInvoke, clearZoom]

theorem cancelZoom_entityView (s : ViewerState) : (cancelZoom s).entityView = s.entityView := by
  cases h : s.zoomPromise <;> simp [cancelZoom, h, completeZoomInvoke, clearZoom]

theorem cancelZoom_enableTranslate (s : ViewerState) :
    (cancelZoom s).enableTranslate = s.enableTranslate := by
  cases h : s.zoomPromise <;> simp [cancelZoom, h, completeZoomInvoke, clearZoom]

theorem cancelZoom_enableTilt (s : ViewerState) : (cancelZoom s).enableTilt = s.enableTilt := by
  cases h : s.zoomPromise <;> simp [cancelZoom, h, completeZoomInvoke, clearZoom]

theorem cancelZoom_zoomIsFlight (s : ViewerState) :
    (cancelZoom s).zoomIsFlight = s.zoomIsFlight := by
  cases h : s.zoomPromise <;> simp [cancelZoom, h, completeZoomInvoke, clearZoom]

theorem cancelZoom_flights (s : ViewerState) : (cancelZoom s).flights = s.flights := by
  cases h : s.zoomPromise <;> simp [cancelZoom, h, completeZoomInvoke, clearZoom]

theorem cancelZoom_nextFlightId (s : ViewerState) :
    (cancelZoom s).nextFlightId = s.nextFlightId := by
  cases h : s.zoomPromise <;> simp [cancelZoom, h, completeZoomInvoke, clearZoom]

theorem cancelZoom_zoomPromise (s : ViewerState) : (cancelZoom s).zoomPromise = none := by
  cases h : s.zoomPromise <;> simp [cancelZoom, h, completeZoomInvoke, clearZoom]

/-! Lemmas about the trackedEntity and selectedEntity setters. -/

theorem setTrackedEntity_trackedEntity (v : Option Entity) (s : ViewerState) :
    (setTrackedEntity v s).trackedEntity = v := by
  by_cases h : s.trackedEntity = v
  · simp [setTrackedEntity, h]
  · simp [setTrackedEntity, if_neg h, apply_ite ViewerState.trackedEntity,
      cancelZoom_trackedEntity]

theorem setTrackedEntity_selectedEntity (v : Option Entity) (s : ViewerState) :
    (setTrackedEntity v s).selectedEntity = s.selectedEntity := by
  by_cases h : s.trackedEntity = v
  · simp [setTrackedEntity, h]
  · simp [setTrackedEntity, if_neg h, apply_ite ViewerState.selectedEntity,
      cancelZoom_selectedEntity]

theorem setSelectedEntity_selectedEntity (v : Option Entity) (s : ViewerState) :
    (setSelectedEntity v s).selectedEntity = v := by
  by_cases h : s.selectedEntity = v
  · simp [setSelectedEntity, h]
  · simp [setSelectedEntity, if_neg h]

theorem setSelectedEntity_trackedEntity (v : Option Entity) (s : ViewerState) :
    (setSelectedEntity v s).trackedEntity = s.trackedEntity := by
  by_cases h : s.selectedEntity = v
  · simp [setSelectedEntity, h]
  · simp [setSelectedEntity, if_neg h]

theorem dataSourceRemovedSelectedPhase_trackedEntity (ds : DataSource) (s : ViewerState) :
    (dataSourceRemovedSelectedPhase ds s).trackedEntity = s.trackedEntity := by
  unfold dataSourceRemovedSelectedPhase
  cases hsel : s.selectedEntity with
  | none => rfl
  | some se =>
    by_cases h2 : ds.entities.getById se.eid = some se
    · simp [h2, setSelectedEntity_trackedEntity]
    · simp [h2]

theorem dataSourceRemovedTrackedPhase_selectedEntity (ds : DataSource) (s : ViewerState) :
    (dataSourceRemovedTrackedPhase ds s).selectedEntity = s.selectedEntity := by
  unfold dataSourceRemovedTrackedPhase
  cases htr : s.trackedEntity with
  | none => rfl
  | some te =>
    by_cases h2 : ds.entities.getById te.eid = some te
    · simp [h2, setTrackedEntity_selectedEntity]
    · simp [h2]

/-- C4: calling zoomTo or flyTo with an absent target throws the
DeveloperError synchronously, and as an execution step it leaves the whole
viewer state untouched: the pending request, its stored target, options and
flight flag are exactly as before. -/
theorem requestView_missing_target_throws (s : ViewerState) (offset : Option HPR)
    (options : Option ZoomOptionsV) (isFlight : Bool) :
    zoomToOrFly none options isFlight s = Except.error DevError.zoomTargetRequired ∧
    step (Ev.callZoomTo none offset) s = s ∧
    step (Ev.callFlyTo none options) s = s :=
  ⟨rfl, rfl, rfl⟩

/-- C7: assigning as tracked entity an absent value or one without a
position property, different from the current tracked entity, immediately
clears the pending-first-fix flag, drops the follower helper, resets the
camera anchor transform to identity, and re-enables the translate control
in 2D and Columbus modes and the tilt control in Columbus and 3D modes. -/
theorem trackedEntity_unpositioned_assignment_clears (s : ViewerState) (v : Option Entity)
    (hstop : v = none ∨ ∃ e, v = some e ∧ e.position = none)
    (hne : s.trackedEntity ≠ v) :
    (setTrackedEntity v s).needTrackedEntityUpdate = false ∧
    (setTrackedEntity v s).entityView = none ∧
    (setTrackedEntity v s).cameraOps = s.cameraOps ++ [CameraOp.lookAtTransformIdentity] ∧
    (setTrackedEntity v s).enableTranslate =
      (if s.sceneMode = SceneMode.columbusView ∨ s.sceneMode = SceneMode.scene2D then
        true else s.enableTranslate) ∧
    (setTrackedEntity v s).enableTilt =
      (if s.sceneMode = SceneMode.columbusView ∨ s.sceneMode = SceneMode.scene3D then
        true else s.enableTilt) := by
  rcases hstop with rfl | ⟨e, rfl, hpos⟩
  · simp [setTrackedEntity, if_neg hne,
      apply_ite ViewerState.needTrackedEntityUpdate, apply_ite ViewerState.entityView,
      apply_ite ViewerState.cameraOps, apply_ite ViewerState.enableTranslate,
      apply_ite ViewerState.enableTilt, apply_ite ViewerState.sceneMode,
      cancelZoom_needTrackedEntityUpdate, cancelZoom_entityView, cancelZoom_cameraOps,
      cancelZoom_enableTranslate, cancelZoom_enableTilt, cancelZoom_sceneMode]
  · simp [setTrackedEntity, if_neg hne, hpos,
      apply_ite ViewerState.needTrackedEntityUpdate, apply_ite ViewerState.entityView,
      apply_ite ViewerState.cameraOps, apply_ite ViewerState.enableTranslate,
      apply_ite ViewerState.enableTilt, apply_ite ViewerState.sceneMode,
      cancelZoom_needTrackedEntityUpdate, cancelZoom_entityView, cancelZoom_cameraOps,
      cancelZoom_enableTranslate, cancelZoom_enableTilt, cancelZoom_sceneMode]

/-- A concrete viewer state with an actively tracked entity, used to
instantiate general theorems. -/
def c7state : ViewerState :=
  { initState with
    trackedEntity := some ⟨3, 3, some (some 4)⟩,
    sceneMode := SceneMode.columbusView,
    enableTranslate := false,
    enableTilt := false,
    entityView := some ⟨3, 3, some (some 4)⟩ }

/-- Closed instance of the C7 theorem: clearing a tracked entity by
assigning an entity without a position property, in Columbus view. -/
theorem trackedEntity_unpositioned_assignment_clears_witness :
    (c7state.trackedEntity ≠ some ⟨5, 5, none⟩) ∧
    ((setTrackedEntity (some ⟨5, 5, none⟩) c7state).needTrackedEntityUpdate = false ∧
     (setTrackedEntity (some ⟨5, 5, none⟩) c7state).entityView = none ∧
     (setTrackedEntity (some ⟨5, 5, none⟩) c7state).cameraOps =
       c7state.cameraOps ++ [CameraOp.lookAtTransformIdentity] ∧
     (setTrackedEntity (some ⟨5, 5, none⟩) c7state).enableTranslate =
       (if c7state.sceneMode = SceneMode.columbusView ∨ c7state.sceneMode = SceneMode.scene2D then
         true else c7state.enableTranslate) ∧
     (setTrackedEntity (some ⟨5, 5, none⟩) c7state).enableTilt =
       (if c7state.sceneMode = SceneMode.columbusView ∨ c7state.sceneMode = SceneMode.scene3D then
         true else c7state.enableTilt)) :=
  ⟨by decide, trackedEntity_unpositioned_assignment_clears c7state (some ⟨5, 5, none⟩)
      (Or.inr ⟨⟨5, 5, none⟩, rfl, rfl⟩) (by decide)⟩

/-- C8: removing a data source clears tracking when its entity collection
yields the currently tracked entity by its id as the same object, and
independently clears selection under the same membership test for the
currently selected entity. -/
theorem dataSourceRemoved_clears_owned (s : ViewerState) (ds : DataSource) :
    ((∃ te, s.trackedEntity = some te ∧ ds.entities.getById te.eid = some te) →
      (dataSourceRemoved ds s).trackedEntity = none) ∧
    ((∃ se, s.selectedEntity = some se ∧ ds.entities.getById se.eid = some se) →
      (dataSourceRemoved ds s).selectedEntity = none) := by
  constructor
  · rintro ⟨te, hte, hid⟩
    unfold dataSourceRemoved
    rw [dataSourceRemovedSelectedPhase_trackedEntity]
    unfold dataSourceRemovedTrackedPhase
    rw [hte]
    simp [hid, setTrackedEntity_trackedEntity]
  · rintro ⟨se, hse, hid⟩
    unfold dataSourceRemoved
    unfold dataSourceRemovedSelectedPhase
    rw [dataSourceRemovedTrackedPhase_selectedEntity, hse]
    simp [hid, setSelectedEntity_selectedEntity, dataSourceRemovedTrackedPhase_selectedEntity, hse]

/-- A data source owning the two entities of c8state. -/
def c8ds : DataSource :=
  ⟨11, ⟨12, [⟨3, 3, some (some 4)⟩, ⟨6, 6, some (some 7)⟩]⟩, false, true⟩

/-- A viewer state tracking one entity of c8ds and selecting another. -/
def c8state : ViewerState :=
  { initState with
    trackedEntity := some ⟨3, 3, some (some 4)⟩,
    selectedEntity := some ⟨6, 6, some (some 7)⟩ }

/-- Closed instance of the C8 theorem: removing the owning data source
clears both the tracked and the selected entity. -/
theorem dataSourceRemoved_clears_owned_witness :
    (dataSourceRemoved c8ds c8state).trackedEntity = none ∧
    (dataSourceRemoved c8ds c8state).selectedEntity = none :=
  ⟨(dataSourceRemoved_clears_owned c8state c8ds).1 ⟨⟨3, 3, some (some 4)⟩, rfl, by decide⟩,
   (dataSourceRemoved_clears_owned c8state c8ds).2 ⟨⟨6, 6, some (some 7)⟩, rfl, by decide⟩⟩

/-- C9: on a clock tick while a follower helper exists, the camera-follower
is updated exactly when the bounding-sphere query of the tracked entity
reports DONE; on PENDING or FAILED the tick leaves the follower and the
camera untouched. -/
theorem onTick_updates_follower_only_on_done (env : BSEnv) (isUpdated : Bool)
    (s : ViewerState) (x te : Entity)
    (hview : s.entityView = some x) (htrk : s.trackedEntity = some te) :
    (∀ sid, BSEnv.query env te = BSRes.done sid →
      (onTick env isUpdated s).entityViewUpdates =
        s.entityViewUpdates ++ [some (BSphere.prim sid)]) ∧
    (BSEnv.query env te = BSRes.pending ∨ BSEnv.query env te = BSRes.failed →
      (onTick env isUpdated s).entityViewUpdates = s.entityViewUpdates ∧
      (onTick env isUpdated s).cameraOps = s.cameraOps) := by
  constructor
  · intro sid hq
    by_cases hs : s.allowSuspend <;>
      simp [onTick, onTickFollower, hs, hview, htrk, hq]
  · rintro (hq | hq) <;> by_cases hs : s.allowSuspend <;>
      simp [onTick, onTickFollower, hs, hview, htrk, hq]

/-- A viewer state with an installed follower helper for entity 3. -/
def c9state : ViewerState :=
  { initState with
    trackedEntity := some ⟨3, 3, some (some 4)⟩,
    entityView := some ⟨3, 3, some (some 4)⟩ }

/-- Closed instance of the C9 theorem: a DONE query updates the follower,
and a FAILED query on the same state leaves it untouched. -/
theorem onTick_updates_follower_only_on_done_witness :
    ((onTick [(⟨3, 3, some (some 4)⟩, BSRes.done 8)] true c9state).entityViewUpdates =
      c9state.entityViewUpdates ++ [some (BSphere.prim 8)]) ∧
    ((onTick [(⟨3, 3, some (some 4)⟩, BSRes.failed)] true c9state).entityViewUpdates =
      c9state.entityViewUpdates ∧
     (onTick [(⟨3, 3, some (some 4)⟩, BSRes.failed)] true c9state).cameraOps =
      c9state.cameraOps) :=
  ⟨(onTick_updates_follower_only_on_done [(⟨3, 3, some (some 4)⟩, BSRes.done 8)] true c9state
      ⟨3, 3, some (some 4)⟩ ⟨3, 3, some (some 4)⟩ rfl rfl).1 8 (by decide),
   (onTick_updates_follower_only_on_done [(⟨3, 3, some (some 4)⟩, BSRes.failed)] true c9state
      ⟨3, 3, some (some 4)⟩ ⟨3, 3, some (some 4)⟩ rfl rfl).2 (Or.inr (by decide))⟩

theorem heapGet_heapSet (heap : List (Nat × List Entity)) (r : Nat) (l : List Entity) :
    heapGet (heapSet heap r l) r = l := by
  simp [heapGet, heapSet, List.find?_cons_of_pos]

/-- C10: a zoom request on a caller-owned array snapshots the array at
normalization time; a subsequent mutation of the array changes the heap but
not the entity list the pending request polls on later render passes. -/
theorem arrayTarget_snapshot (s : ViewerState) (r : Nat) (l0 l1 : List Entity)
    (offset : Option HPR)
    (hheap : heapGet s.heap r = l0)
    (htasks : s.normTasks = []) :
    polledEntities (run [Ev.callZoomTo (some (RawTarget.arrayTarget r)) offset,
        Ev.normalizeNext, Ev.mutateArray r l1] s) = l0 ∧
    heapGet (run [Ev.callZoomTo (some (RawTarget.arrayTarget r)) offset,
        Ev.normalizeNext, Ev.mutateArray r l1] s).heap r = l1 := by
  constructor
  · simp [run, step, zoomTo, zoomToOrFly, runNormalizeTask, cancelZoom_normTasks, htasks,
      cancelZoom_heap, hheap, polledEntities]
  · simp [run, step, zoomTo, zoomToOrFly, runNormalizeTask, cancelZoom_normTasks, htasks,
      cancelZoom_heap, hheap, heapGet_heapSet]

/-- Closed instance of the C10 theorem: the entity stored at normalization
time survives a later overwrite of the array. -/
theorem arrayTarget_snapshot_witness :
    polledEntities (run [Ev.callZoomTo (some (RawTarget.arrayTarget 0)) none,
        Ev.normalizeNext, Ev.mutateArray 0 [⟨9, 9, none⟩]]
        { initState with heap := [(0, [⟨1, 1, some (some 2)⟩])] }) =
      [⟨1, 1, some (some 2)⟩] ∧
    heapGet (run [Ev.callZoomTo (some (RawTarget.arrayTarget 0)) none,
        Ev.normalizeNext, Ev.mutateArray 0 [⟨9, 9, none⟩]]
        { initState with heap := [(0, [⟨1, 1, some (some 2)⟩])] }).heap 0 =
      [⟨9, 9, none⟩] :=
  arrayTarget_snapshot { initState with heap := [(0, [⟨1, 1, some (some 2)⟩])] }
    0 [⟨1, 1, some (some 2)⟩] [⟨9, 9, none⟩] none (by decide) (by decide)

/-! Lemmas about settlement of entity-list targets. -/

theorem pollBoundingSpheres_of_noPending (env : BSEnv) (l : List Entity)
    (hnp : ∀ e ∈ l, BSEnv.query env e ≠ BSRes.pending) :
    pollBoundingSpheres env l = some (doneSids env l) := by
  induction l with
  | nil => rfl
  | cons e rest ih =>
    have hrest : ∀ x ∈ rest, BSEnv.query env x ≠ BSRes.pending := by
      intro x hx
      exact hnp x (List.mem_cons_of_mem e hx)
    have he := hnp e (List.mem_cons_self e rest)
    cases hq : BSEnv.query env e with
    | pending => exact absurd hq he
    | failed => simp [pollBoundingSpheres, doneSids, hq, ih hrest]
    | done sid =>
      simp [pollBoundingSpheres, doneSids, hq, ih hrest]

theorem pollBoundingSpheres_of_allFailed (env : BSEnv) (l : List Entity)
    (hf : ∀ e ∈ l, BSEnv.query env e = BSRes.failed) :
    pollBoundingSpheres env l = some [] := by
  induction l with
  | nil => rfl
  | cons e rest ih =>
    have hrest : ∀ x ∈ rest, BSEnv.query env x = BSRes.failed := by
      intro x hx
      exact hf x (List.mem_cons_of_mem e hx)
    simp [pollBoundingSpheres, hf e (List.mem_cons_self e rest), ih hrest]

theorem find?_none_of_invocationsFor_nil (p : Nat) (s : ViewerState)
    (hun : invocationsFor p s = []) :
    s.invocations.find? (fun i => i.1 == p) = none := by
  rw [List.find?_eq_none]
  intro x hx
  exact (List.filter_eq_nil_iff.mp hun) x hx

theorem settles_of_invocations_append (p : Nat) (s : ViewerState) (x : ViewerState)
    (rest : List (Nat × Bool))
    (hx : x.invocations = s.invocations ++ rest)
    (hun : invocationsFor p s = []) :
    settles p x = (rest.find? (fun i => i.1 == p)).map (fun i => i.2) := by
  unfold settles
  rw [hx, List.find?_append, find?_none_of_invocationsFor_nil p s hun, Option.none_or]

theorem settles_of_unresolved (p : Nat) (s : ViewerState)
    (hun : invocationsFor p s = []) : settles p s = none := by
  unfold settles
  rw [find?_none_of_invocationsFor_nil p s hun]
  rfl

theorem cancelZoom_isSome (s : ViewerState) (h : s.zoomPromise.isSome) :
    cancelZoom s = completeZoomInvoke false (clearZoom s) := by
  cases hz : s.zoomPromise with
  | none => rw [hz] at h; cases h
  | some p => exact cancelZoom_of_some s p hz

theorem setTrackedEntity_none_fields (s : ViewerState) (hp : s.zoomPromise.isSome)
    (hne : s.trackedEntity ≠ none) :
    (setTrackedEntity none s).invocations = s.invocations ++ [(s.completeId, false)] ∧
    (setTrackedEntity none s).zoomPromise = none ∧
    (setTrackedEntity none s).zoomTarget = none ∧
    (setTrackedEntity none s).completeId = s.completeId ∧
    (setTrackedEntity none s).cameraOps = s.cameraOps ++ [CameraOp.lookAtTransformIdentity] ∧
    (setTrackedEntity none s).zoomIsFlight = s.zoomIsFlight ∧
    (setTrackedEntity none s).flights = s.flights ∧
    (setTrackedEntity none s).nextFlightId = s.nextFlightId := by
  have hz : ({ s with trackedEntity := none } : ViewerState).zoomPromise.isSome := hp
  simp only [setTrackedEntity, if_neg hne, cancelZoom_isSome _ hz]
  simp [completeZoomInvoke, clearZoom,
    apply_ite ViewerState.invocations, apply_ite ViewerState.zoomPromise,
    apply_ite ViewerState.zoomTarget, apply_ite ViewerState.completeId,
    apply_ite ViewerState.cameraOps, apply_ite ViewerState.zoomIsFlight,
    apply_ite ViewerState.flights, apply_ite ViewerState.nextFlightId]

theorem settleEntities_spec (env : BSEnv) (zo : ZoomOptionsV) (l : List Entity)
    (s : ViewerState) (p : Nat) (sids : List Nat)
    (hpoll : pollBoundingSpheres env l = some sids)
    (hsne : sids ≠ [])
    (hp : s.zoomPromise = some p)
    (hcid : s.completeId = p)
    (hun : invocationsFor p s = []) :
    (settleEntities env zo l s).trackedEntity = none ∧
    (settleEntities env zo l s).zoomPromise = none ∧
    (settleEntities env zo l s).zoomTarget = none ∧
    (settleEntities env zo l s).cameraOps =
      s.cameraOps ++
        (if s.trackedEntity = none then [] else [CameraOp.lookAtTransformIdentity]) ++
        (if s.zoomIsFlight then
          [CameraOp.flyToBoundingSphere (BSphere.combined sids) zo.offset zo.duration
            zo.maximumHeight s.nextFlightId]
         else
          [CameraOp.viewBoundingSphere (BSphere.combined sids) zo.offset,
           CameraOp.lookAtTransformIdentity]) ∧
    settles p (settleEntities env zo l s) =
      (if s.trackedEntity = none then (if s.zoomIsFlight then none else some true)
       else some false) := by
  subst hcid
  have hEmpty : sids.isEmpty = false := List.isEmpty_eq_false.mpr hsne
  by_cases ht : s.trackedEntity = none
  · have hset : setTrackedEntity none s = s := by simp [setTrackedEntity, ht]
    by_cases hf : s.zoomIsFlight = true
    · have hres : settleEntities env zo l s =
          clearZoom { s with
            flights := s.flights ++ [s.nextFlightId]
            nextFlightId := s.nextFlightId + 1
            cameraOps := s.cameraOps ++
              [CameraOp.flyToBoundingSphere (BSphere.combined sids) zo.offset
                zo.duration zo.maximumHeight s.nextFlightId] } := by
        simp [settleEntities, hpoll, hEmpty, hset, hf, clearZoom]
      rw [hres]
      refine ⟨by simp [clearZoom, ht], by simp [clearZoom], by simp [clearZoom],
        by simp [clearZoom, ht, hf], ?_⟩
      rw [settles_of_invocations_append _ s _ [] (by simp [clearZoom]) hun]
      simp [ht, hf]
    · have hres : settleEntities env zo l s =
          completeZoomInvoke true (clearZoom
            { s with cameraOps := s.cameraOps ++
                [CameraOp.viewBoundingSphere (BSphere.combined sids) zo.offset,
                 CameraOp.lookAtTransformIdentity] }) := by
        simp [settleEntities, hpoll, hEmpty, hset, hf]
      rw [hres]
      refine ⟨by simp [completeZoomInvoke, clearZoom, ht],
        by simp [completeZoomInvoke, clearZoom],
        by simp [completeZoomInvoke, clearZoom],
        by simp [completeZoomInvoke, clearZoom, ht, hf], ?_⟩
      rw [settles_of_invocations_append _ s _ [(s.completeId, true)]
        (by simp [completeZoomInvoke, clearZoom]) hun]
      simp [ht, hf, List.find?_cons_of_pos]
  · obtain ⟨hinv1, hzp1, hzt1, hcid1, hcam1, hfl1, hfls1, hnfl1⟩ :=
      setTrackedEntity_none_fields s (by rw [hp]; rfl) ht
    by_cases hf : s.zoomIsFlight = true
    · have hres : settleEntities env zo l s =
          clearZoom { setTrackedEntity none s with
            flights := (setTrackedEntity none s).flights ++
              [(setTrackedEntity none s).nextFlightId]
            nextFlightId := (setTrackedEntity none s).nextFlightId + 1
            cameraOps := (setTrackedEntity none s).cameraOps ++
              [CameraOp.flyToBoundingSphere (BSphere.combined sids) zo.offset
                zo.duration zo.maximumHeight (setTrackedEntity none s).nextFlightId] } := by
        simp [settleEntities, hpoll, hEmpty, hfl1, hf, clearZoom]
      rw [hres]
      refine ⟨by simp [clearZoom, setTrackedEntity_trackedEntity],
        by simp [clearZoom], by simp [clearZoom], ?_, ?_⟩
      · simp [clearZoom, hcam1, hnfl1, ht, hf]
      · rw [settles_of_invocations_append _ s _ [(s.completeId, false)]
          (by simp [clearZoom, hinv1]) hun]
        simp [ht, hf, List.find?_cons_of_pos]
    · have hres : settleEntities env zo l s =
          completeZoomInvoke true (clearZoom
            { setTrackedEntity none s with
              cameraOps := (setTrackedEntity none s).cameraOps ++
                [CameraOp.viewBoundingSphere (BSphere.combined sids) zo.offset,
                 CameraOp.lookAtTransformIdentity] }) := by
        simp [settleEntities, hpoll, hEmpty, hfl1, hf]
      rw [hres]
      refine ⟨by simp [completeZoomInvoke, clearZoom, setTrackedEntity_trackedEntity],
        by simp [completeZoomInvoke, clearZoom],
        by simp [completeZoomInvoke, clearZoom], ?_, ?_⟩
      · simp [completeZoomInvoke, clearZoom, hcam1, ht, hf]
      · rw [settles_of_invocations_append _ s _ [(s.completeId, false), ((setTrackedEntity none s).completeId, true)]
          (by simp [completeZoomInvoke, clearZoom, hinv1]) hun]
        simp [ht, hf, List.find?_cons_of_pos]

theorem updateZoomTarget_entities_eq (env : BSEnv) (s : ViewerState) (l : List Entity)
    (htgt : s.zoomTarget = some (ZoomTarget.entities l))
    (hmode : s.sceneMode ≠ SceneMode.morphing) :
    updateZoomTarget env s = settleEntities env (s.zoomOptions.getD ZoomOptionsV.empty) l s := by
  simp [updateZoomTarget, htgt, hmode]

/-- C2 as amended: when a pending entity-list request settles on a pass
where no polled entity is PENDING and at least one contributed a usable
sphere, the settlement clears any tracked entity, performs the snap or
flight move on the combined sphere, resets the camera anchor transform in
snap mode, and clears the request; the outcome settles true only when no
tracked entity was active, because clearing an active tracked entity runs
cancelZoom on the still-installed promise, settling it false before the
final resolve-true invocation, which the already-settled promise ignores. -/
theorem entityList_settlement_outcome (env : BSEnv) (s : ViewerState) (l : List Entity)
    (p : Nat) (sids : List Nat)
    (htgt : s.zoomTarget = some (ZoomTarget.entities l))
    (hmode : s.sceneMode ≠ SceneMode.morphing)
    (hpoll : pollBoundingSpheres env l = some sids)
    (hsne : sids ≠ [])
    (hp : s.zoomPromise = some p)
    (hcid : s.completeId = p)
    (hun : invocationsFor p s = []) :
    (updateZoomTarget env s).trackedEntity = none ∧
    (updateZoomTarget env s).zoomPromise = none ∧
    (updateZoomTarget env s).zoomTarget = none ∧
    (updateZoomTarget env s).cameraOps =
      s.cameraOps ++
        (if s.trackedEntity = none then [] else [CameraOp.lookAtTransformIdentity]) ++
        (if s.zoomIsFlight then
          [CameraOp.flyToBoundingSphere (BSphere.combined sids)
            (s.zoomOptions.getD ZoomOptionsV.empty).offset
            (s.zoomOptions.getD ZoomOptionsV.empty).duration
            (s.zoomOptions.getD ZoomOptionsV.empty).maximumHeight s.nextFlightId]
         else
          [CameraOp.viewBoundingSphere (BSphere.combined sids)
            (s.zoomOptions.getD ZoomOptionsV.empty).offset,
           CameraOp.lookAtTransformIdentity]) ∧
    settles p (updateZoomTarget env s) =
      (if s.trackedEntity = none then (if s.zoomIsFlight then none else some true)
       else some false) := by
  rw [updateZoomTarget_entities_eq env s l htgt hmode]
  exact settleEntities_spec env (s.zoomOptions.getD ZoomOptionsV.empty) l s p sids
    hpoll hsne hp hcid hun

/-- The viewer state of the C2 scenario just before the settling pass:
entity 0 is tracked, and a snap request on entity 1 is pending. -/
def c2state : ViewerState :=
  run [Ev.assignTracked (some ⟨0, 0, some (some 1)⟩),
       Ev.callZoomTo (some (RawTarget.singleEntity ⟨1, 1, some (some 2)⟩)) none,
       Ev.normalizeNext] initState

/-- Closed instance of the amended C2 theorem: with a tracked entity active
at settlement, the move happens, tracking is cleared, and the outcome
settles false. -/
theorem entityList_settlement_outcome_witness :
    (updateZoomTarget [(⟨1, 1, some (some 2)⟩, BSRes.done 5)] c2state).trackedEntity = none ∧
    (updateZoomTarget [(⟨1, 1, some (some 2)⟩, BSRes.done 5)] c2state).zoomPromise = none ∧
    (updateZoomTarget [(⟨1, 1, some (some 2)⟩, BSRes.done 5)] c2state).zoomTarget = none ∧
    (updateZoomTarget [(⟨1, 1, some (some 2)⟩, BSRes.done 5)] c2state).cameraOps =
      c2state.cameraOps ++
        (if c2state.trackedEntity = none then [] else [CameraOp.lookAtTransformIdentity]) ++
        (if c2state.zoomIsFlight then
          [CameraOp.flyToBoundingSphere (BSphere.combined [5])
            (c2state.zoomOptions.getD ZoomOptionsV.empty).offset
            (c2state.zoomOptions.getD ZoomOptionsV.empty).duration
            (c2state.zoomOptions.getD ZoomOptionsV.empty).maximumHeight c2state.nextFlightId]
         else
          [CameraOp.viewBoundingSphere (BSphere.combined [5])
            (c2state.zoomOptions.getD ZoomOptionsV.empty).offset,
           CameraOp.lookAtTransformIdentity]) ∧
    settles 1 (updateZoomTarget [(⟨1, 1, some (some 2)⟩, BSRes.done 5)] c2state) =
      (if c2state.trackedEntity = none then (if c2state.zoomIsFlight then none else some true)
       else some false) :=
  entityList_settlement_outcome [(⟨1, 1, some (some 2)⟩, BSRes.done 5)] c2state
    [⟨1, 1, some (some 2)⟩] 1 [5] (by decide) (by decide) (by decide) (by decide)
    (by decide) (by decide) (by decide)

/-- Counterexample to C2 as stated: in the concrete snap scenario with a
tracked entity active at settlement time, the camera move and the
tracking-clear do happen, but the outcome of the request settles false, not
true, because the trackedEntity setter cancels the still-installed promise. -/
theorem entityList_settlement_claim_counterexample :
    settles 1 (run [Ev.assignTracked (some ⟨0, 0, some (some 1)⟩),
        Ev.callZoomTo (some (RawTarget.singleEntity ⟨1, 1, some (some 2)⟩)) none,
        Ev.normalizeNext,
        Ev.renderPass [(⟨1, 1, some (some 2)⟩, BSRes.done 5)]] initState) = some false ∧
    (run [Ev.assignTracked (some ⟨0, 0, some (some 1)⟩),
        Ev.callZoomTo (some (RawTarget.singleEntity ⟨1, 1, some (some 2)⟩)) none,
        Ev.normalizeNext,
        Ev.renderPass [(⟨1, 1, some (some 2)⟩, BSRes.done 5)]] initState).trackedEntity = none ∧
    (run [Ev.assignTracked (some ⟨0, 0, some (some 1)⟩),
        Ev.callZoomTo (some (RawTarget.singleEntity ⟨1, 1, some (some 2)⟩)) none,
        Ev.normalizeNext,
        Ev.renderPass [(⟨1, 1, some (some 2)⟩, BSRes.done 5)]] initState).cameraOps =
      [CameraOp.lookAtTransformIdentity,
       CameraOp.viewBoundingSphere (BSphere.combined [5]) none,
       CameraOp.lookAtTransformIdentity] := by
  refine ⟨by decide, by decide, by decide⟩

/-- C5: if on the settling pass every entity of the list target reports
FAILED, the request is cancelled: the outcome settles false, the pending
request is cleared, and no camera movement primitive is invoked. -/
theorem allFailed_cancels_without_camera_move (env : BSEnv) (s : ViewerState)
    (l : List Entity) (p : Nat)
    (htgt : s.zoomTarget = some (ZoomTarget.entities l))
    (hmode : s.sceneMode ≠ SceneMode.morphing)
    (hfail : ∀ e ∈ l, BSEnv.query env e = BSRes.failed)
    (hp : s.zoomPromise = some p)
    (hcid : s.completeId = p)
    (hun : invocationsFor p s = []) :
    settles p (updateZoomTarget env s) = some false ∧
    (updateZoomTarget env s).cameraOps = s.cameraOps ∧
    (updateZoomTarget env s).zoomPromise = none ∧
    (updateZoomTarget env s).zoomTarget = none := by
  subst hcid
  rw [updateZoomTarget_entities_eq env s l htgt hmode]
  have hres : settleEntities env (s.zoomOptions.getD ZoomOptionsV.empty) l s =
      completeZoomInvoke false (clearZoom s) := by
    simp [settleEntities, pollBoundingSpheres_of_allFailed env l hfail,
      cancelZoom_isSome s (by rw [hp]; rfl)]
  rw [hres]
  refine ⟨?_, by simp [completeZoomInvoke, clearZoom],
    by simp [completeZoomInvoke, clearZoom], by simp [completeZoomInvoke, clearZoom]⟩
  rw [settles_of_invocations_append _ s _ [(s.completeId, false)]
    (by simp [completeZoomInvoke, clearZoom]) hun]
  simp [List.find?_cons_of_pos]

/-- The viewer state of the C5 and C6 scenarios: a pending snap request on
two entities. -/
def c5state : ViewerState :=
  run [Ev.callZoomTo (some (RawTarget.arrayTarget 0)) none, Ev.normalizeNext]
    { initState with heap := [(0, [⟨1, 1, some (some 2)⟩, ⟨2, 2, some (some 3)⟩])] }

/-- Closed instance of the C5 theorem: both entities FAILED. -/
theorem allFailed_cancels_without_camera_move_witness :
    settles 1 (updateZoomTarget
      [(⟨1, 1, some (some 2)⟩, BSRes.failed), (⟨2, 2, some (some 3)⟩, BSRes.failed)]
      c5state) = some false ∧
    (updateZoomTarget
      [(⟨1, 1, some (some 2)⟩, BSRes.failed), (⟨2, 2, some (some 3)⟩, BSRes.failed)]
      c5state).cameraOps = c5state.cameraOps ∧
    (updateZoomTarget
      [(⟨1, 1, some (some 2)⟩, BSRes.failed), (⟨2, 2, some (some 3)⟩, BSRes.failed)]
      c5state).zoomPromise = none ∧
    (updateZoomTarget
      [(⟨1, 1, some (some 2)⟩, BSRes.failed), (⟨2, 2, some (some 3)⟩, BSRes.failed)]
      c5state).zoomTarget = none :=
  allFailed_cancels_without_camera_move
    [(⟨1, 1, some (some 2)⟩, BSRes.failed), (⟨2, 2, some (some 3)⟩, BSRes.failed)]
    c5state [⟨1, 1, some (some 2)⟩, ⟨2, 2, some (some 3)⟩] 1
    (by decide) (by decide) (by decide) (by decide) (by decide) (by decide)

/-- C6: on a settling pass with no PENDING entity and at least one DONE
entity, the camera move uses exactly the combination of the bounding
spheres of the DONE entities in list order; FAILED entities contribute
nothing. -/
theorem cameraMove_uses_union_of_done (env : BSEnv) (s : ViewerState)
    (l : List Entity) (p : Nat)
    (htgt : s.zoomTarget = some (ZoomTarget.entities l))
    (hmode : s.sceneMode ≠ SceneMode.morphing)
    (hnp : ∀ e ∈ l, BSEnv.query env e ≠ BSRes.pending)
    (hda : doneSids env l ≠ [])
    (hp : s.zoomPromise = some p)
    (hcid : s.completeId = p)
    (hun : invocationsFor p s = []) :
    (updateZoomTarget env s).cameraOps =
      s.cameraOps ++
        (if s.trackedEntity = none then [] else [CameraOp.lookAtTransformIdentity]) ++
        (if s.zoomIsFlight then
          [CameraOp.flyToBoundingSphere (BSphere.combined (doneSids env l))
            (s.zoomOptions.getD ZoomOptionsV.empty).offset
            (s.zoomOptions.getD ZoomOptionsV.empty).duration
            (s.zoomOptions.getD ZoomOptionsV.empty).maximumHeight s.nextFlightId]
         else
          [CameraOp.viewBoundingSphere (BSphere.combined (doneSids env l))
            (s.zoomOptions.getD ZoomOptionsV.empty).offset,
           CameraOp.lookAtTransformIdentity]) := by
  rw [updateZoomTarget_entities_eq env s l htgt hmode]
  exact (settleEntities_spec env (s.zoomOptions.getD ZoomOptionsV.empty) l s p
    (doneSids env l) (pollBoundingSpheres_of_noPending env l hnp) hda hp hcid hun).2.2.2.1

/-- Closed instance of the C6 theorem: one DONE and one FAILED entity; the
move uses only the sphere of the DONE entity. -/
theorem cameraMove_uses_union_of_done_witness :
    (updateZoomTarget
      [(⟨1, 1, some (some 2)⟩, BSRes.done 5), (⟨2, 2, some (some 3)⟩, BSRes.failed)]
      c5state).cameraOps =
      c5state.cameraOps ++
        (if c5state.trackedEntity = none then [] else [CameraOp.lookAtTransformIdentity]) ++
        (if c5state.zoomIsFlight then
          [CameraOp.flyToBoundingSphere
            (BSphere.combined (doneSids
              [(⟨1, 1, some (some 2)⟩, BSRes.done 5), (⟨2, 2, some (some 3)⟩, BSRes.failed)]
              [⟨1, 1, some (some 2)⟩, ⟨2, 2, some (some 3)⟩]))
            (c5state.zoomOptions.getD ZoomOptionsV.empty).offset
            (c5state.zoomOptions.getD ZoomOptionsV.empty).duration
            (c5state.zoomOptions.getD ZoomOptionsV.empty).maximumHeight c5state.nextFlightId]
         else
          [CameraOp.viewBoundingSphere
            (BSphere.combined (doneSids
              [(⟨1, 1, some (some 2)⟩, BSRes.done 5), (⟨2, 2, some (some 3)⟩, BSRes.failed)]
              [⟨1, 1, some (some 2)⟩, ⟨2, 2, some (some 3)⟩]))
            (c5state.zoomOptions.getD ZoomOptionsV.empty).offset,
           CameraOp.lookAtTransformIdentity]) :=
  cameraMove_uses_union_of_done
    [(⟨1, 1, some (some 2)⟩, BSRes.done 5), (⟨2, 2, some (some 3)⟩, BSRes.failed)]
    c5state [⟨1, 1, some (some 2)⟩, ⟨2, 2, some (some 3)⟩] 1
    (by decide) (by decide) (by decide) (by decide) (by decide) (by decide) (by decide)

/-- C3 as amended: a rejected readiness promise of a volumetric target
cancels the request and settles the outcome false for Cesium3DTileset and
VoxelPrimitive targets, whose chain ends in a catch handler; for a
TimeDynamicPointCloud target the chain has no catch handler, so the
rejection is left unhandled: the request stays installed, the outcome stays
unresolved, and no camera move or cancellation happens. -/
theorem volumetricReadiness_failure (s : ViewerState) (vid : Nat) (v : Volumetric)
    (capt : ZoomOptionsV) (p : Nat)
    (hcont : s.readyConts = [⟨vid, kindHasCatch v.kind, v, capt⟩]) :
    (v.kind = VolKind.timeDynamicPointCloud →
      (stepReadySettle vid false s).invocations = s.invocations ∧
      (stepReadySettle vid false s).zoomTarget = s.zoomTarget ∧
      (stepReadySettle vid false s).zoomPromise = s.zoomPromise ∧
      (stepReadySettle vid false s).cameraOps = s.cameraOps ∧
      (stepReadySettle vid false s).unhandledRejections = s.unhandledRejections + 1) ∧
    (v.kind ≠ VolKind.timeDynamicPointCloud → s.zoomPromise = some p →
      s.completeId = p → invocationsFor p s = [] →
      settles p (stepReadySettle vid false s) = some false ∧
      (stepReadySettle vid false s).zoomTarget = none ∧
      (stepReadySettle vid false s).zoomPromise = none ∧
      (stepReadySettle vid false s).cameraOps = s.cameraOps) := by
  constructor
  · intro hk
    have hc : kindHasCatch v.kind = false := by rw [hk]; rfl
    rw [hc] at hcont
    simp [stepReadySettle, hcont, runReadyConts, runReadyCont]
  · intro hk hp hcid hun
    subst hcid
    have hc : kindHasCatch v.kind = true := by
      cases hkind : v.kind with
      | cesium3DTileset => rfl
      | voxelPrimitive => rfl
      | timeDynamicPointCloud => exact absurd hkind hk
    rw [hc] at hcont
    have hres : stepReadySettle vid false s =
        completeZoomInvoke false (clearZoom { s with readyConts := [] }) := by
      simp [stepReadySettle, hcont, runReadyConts, runReadyCont,
        cancelZoom_isSome ({ s with readyConts := ([] : List ReadyCont) }) (by simp [hp])]
    rw [hres]
    refine ⟨?_, by simp [completeZoomInvoke, clearZoom],
      by simp [completeZoomInvoke, clearZoom], by simp [completeZoomInvoke, clearZoom]⟩
    rw [settles_of_invocations_append _ s _ [(s.completeId, false)]
      (by simp [completeZoomInvoke, clearZoom]) hun]
    simp [List.find?_cons_of_pos]

/-- A pending flight request on a TimeDynamicPointCloud whose readiness
continuation has been attached by one render pass. -/
def c3tdpcState : ViewerState :=
  run [Ev.callFlyTo (some (RawTarget.volumetric
        ⟨7, VolKind.timeDynamicPointCloud, BSphere.prim 9⟩)) none,
       Ev.normalizeNext, Ev.renderPass []] initState

/-- A pending flight request on a Cesium3DTileset whose readiness
continuation has been attached by one render pass. -/
def c3tilesetState : ViewerState :=
  run [Ev.callFlyTo (some (RawTarget.volumetric
        ⟨8, VolKind.cesium3DTileset, BSphere.prim 9⟩)) none,
       Ev.normalizeNext, Ev.renderPass []] initState

/-- Closed instance of the amended C3 theorem, exercising both halves: a
rejected TimeDynamicPointCloud readiness leaves everything pending, while a
rejected Cesium3DTileset readiness cancels and settles false. -/
theorem volumetricReadiness_failure_witness :
    ((stepReadySettle 7 false c3tdpcState).invocations = c3tdpcState.invocations ∧
     (stepReadySettle 7 false c3tdpcState).zoomTarget = c3tdpcState.zoomTarget ∧
     (stepReadySettle 7 false c3tdpcState).zoomPromise = c3tdpcState.zoomPromise ∧
     (stepReadySettle 7 false c3tdpcState).cameraOps = c3tdpcState.cameraOps ∧
     (stepReadySettle 7 false c3tdpcState).unhandledRejections =
       c3tdpcState.unhandledRejections + 1) ∧
    (settles 1 (stepReadySettle 8 false c3tilesetState) = some false ∧
     (stepReadySettle 8 false c3tilesetState).zoomTarget = none ∧
     (stepReadySettle 8 false c3tilesetState).zoomPromise = none ∧
     (stepReadySettle 8 false c3tilesetState).cameraOps = c3tilesetState.cameraOps) :=
  ⟨(volumetricReadiness_failure c3tdpcState 7
      ⟨7, VolKind.timeDynamicPointCloud, BSphere.prim 9⟩ ⟨none, none, none⟩ 1
      (by decide)).1 rfl,
   (volumetricReadiness_failure c3tilesetState 8
      ⟨8, VolKind.cesium3DTileset, BSphere.prim 9⟩ ⟨none, none, none⟩ 1
      (by decide)).2 (by decide) (by decide) (by decide) (by decide)⟩

/-- Counterexample to C3 as stated: for a TimeDynamicPointCloud target a
readiness rejection neither cancels the request nor settles the outcome;
the request stays installed and the rejection is unhandled. -/
theorem volumetricReadiness_failure_claim_counterexample :
    settles 1 (run [Ev.callFlyTo (some (RawTarget.volumetric
        ⟨7, VolKind.timeDynamicPointCloud, BSphere.prim 9⟩)) none,
      Ev.normalizeNext, Ev.renderPass [], Ev.readySettle 7 false] initState) = none ∧
    (run [Ev.callFlyTo (some (RawTarget.volumetric
        ⟨7, VolKind.timeDynamicPointCloud, BSphere.prim 9⟩)) none,
      Ev.normalizeNext, Ev.renderPass [], Ev.readySettle 7 false] initState).zoomTarget =
      some (ZoomTarget.volumetric ⟨7, VolKind.timeDynamicPointCloud, BSphere.prim 9⟩) ∧
    (run [Ev.callFlyTo (some (RawTarget.volumetric
        ⟨7, VolKind.timeDynamicPointCloud, BSphere.prim 9⟩)) none,
      Ev.normalizeNext, Ev.renderPass [], Ev.readySettle 7 false] initState).zoomPromise =
      some 1 ∧
    (run [Ev.callFlyTo (some (RawTarget.volumetric
        ⟨7, VolKind.timeDynamicPointCloud, BSphere.prim 9⟩)) none,
      Ev.normalizeNext, Ev.renderPass [], Ev.readySettle 7 false] initState).unhandledRejections = 1 := by
  refine ⟨by decide, by decide, by decide, by decide⟩

/-! Machinery for the sequencing claim: no step of the system ever invokes
the resolver of a promise strictly older than the one currently installed,
and the resolver identity never moves backwards. -/

def PreservesRes (f : ViewerState → ViewerState) : Prop :=
  ∀ s p, p ≠ s.completeId →
    invocationsFor p (f s) = invocationsFor p s ∧
    (f s).completeId = s.completeId ∧
    (f s).nextPromiseId = s.nextPromiseId

theorem preservesRes_comp {f g : ViewerState → ViewerState}
    (hf : PreservesRes f) (hg : PreservesRes g) :
    PreservesRes (fun s => g (f s)) := by
  intro s p hp
  obtain ⟨h1, h2, h3⟩ := hf s p hp
  obtain ⟨h4, h5, h6⟩ := hg (f s) p (by rw [h2]; exact hp)
  exact ⟨h4.trans h1, h5.trans h2, h6.trans h3⟩

theorem preservesRes_completeZoomInvoke (b : Bool) : PreservesRes (completeZoomInvoke b) := by
  intro s p hp
  refine ⟨?_, rfl, rfl⟩
  simp [invocationsFor, completeZoomInvoke, List.filter_append, List.filter_cons,
    Ne.symm hp]

theorem preservesRes_clearZoom : PreservesRes clearZoom := by
  intro s p hp
  exact ⟨rfl, rfl, rfl⟩

theorem preservesRes_cancelZoom : PreservesRes cancelZoom := by
  intro s p hp
  cases hz : s.zoomPromise with
  | none => rw [cancelZoom_of_none s hz]; exact ⟨rfl, rfl, rfl⟩
  | some q =>
    rw [cancelZoom_of_some s q hz]
    obtain ⟨h1, h2, h3⟩ := preservesRes_completeZoomInvoke false (clearZoom s) p hp
    exact ⟨h1, h2, h3⟩

theorem setTrackedEntity_resFields (v : Option Entity) (s : ViewerState) :
    (setTrackedEntity v s).invocations =
      (if s.trackedEntity = v then s.invocations
       else (cancelZoom { s with trackedEntity := v }).invocations) ∧
    (setTrackedEntity v s).completeId = s.completeId ∧
    (setTrackedEntity v s).nextPromiseId = s.nextPromiseId := by
  by_cases h : s.trackedEntity = v
  · simp [setTrackedEntity, h]
  · refine ⟨?_, ?_, ?_⟩ <;>
      simp [setTrackedEntity, if_neg h, apply_ite ViewerState.invocations,
        apply_ite ViewerState.completeId, apply_ite ViewerState.nextPromiseId,
        cancelZoom_completeId, cancelZoom_nextPromiseId]

theorem preservesRes_setTrackedEntity (v : Option Entity) :
    PreservesRes (setTrackedEntity v) := by
  intro s p hp
  obtain ⟨h1, h2, h3⟩ := setTrackedEntity_resFields v s
  by_cases h : s.trackedEntity = v
  · rw [if_pos h] at h1
    exact ⟨by simp [invocationsFor, h1], h2, h3⟩
  · rw [if_neg h] at h1
    obtain ⟨g1, g2, g3⟩ := preservesRes_cancelZoom { s with trackedEntity := v } p hp
    refine ⟨?_, h2, h3⟩
    rw [invocationsFor, h1]
    exact g1

theorem preservesRes_setSelectedEntity (v : Option Entity) :
    PreservesRes (setSelectedEntity v) := by
  intro s p hp
  by_cases h : s.selectedEntity = v <;> simp [setSelectedEntity, h, invocationsFor]

theorem preservesRes_runNormalizeTask : PreservesRes runNormalizeTask := by
  intro s p hp
  unfold runNormalizeTask
  refine ⟨?_, ?_, ?_⟩ <;> (repeat' split) <;>
    simp [invocationsFor, apply_ite ViewerState.invocations,
      apply_ite ViewerState.completeId, apply_ite ViewerState.nextPromiseId]

theorem preservesRes_runLoadListeners (l : List (Nat × DataSource)) :
    PreservesRes (runLoadListeners l) := by
  induction l with
  | nil => intro s p hp; exact ⟨rfl, rfl, rfl⟩
  | cons a t ih =>
    intro s p hp
    obtain ⟨pid, ds⟩ := a
    by_cases h : s.zoomPromise = some pid
    · have : runLoadListeners ((pid, ds) :: t) s =
          runLoadListeners t { s with zoomTarget := some (ZoomTarget.entities ds.entities.values) } := by
        simp [runLoadListeners, h]
      rw [this]
      exact ih _ p hp
    · have : runLoadListeners ((pid, ds) :: t) s = runLoadListeners t s := by
        simp [runLoadListeners, h]
      rw [this]
      exact ih s p hp

theorem preservesRes_stepDataSourceLoaded (dsid : Nat) :
    PreservesRes (stepDataSourceLoaded dsid) := by
  intro s p hp
  unfold stepDataSourceLoaded
  exact preservesRes_runLoadListeners _ _ p hp

theorem preservesRes_settlePosition (zo : ZoomOptionsV) (dest : Nat) :
    PreservesRes (settlePosition zo dest) := by
  intro s p hp
  unfold settlePosition
  split
  · exact ⟨rfl, rfl, rfl⟩
  · obtain ⟨h1, h2, h3⟩ := preservesRes_completeZoomInvoke true
      { s with cameraOps := s.cameraOps ++ [CameraOp.setView dest] } p hp
    exact ⟨h1, h2, h3⟩

theorem preservesRes_runVolumetricReady (c : ReadyCont) :
    PreservesRes (runVolumetricReady c) := by
  intro s p hp
  unfold runVolumetricReady
  split
  · exact ⟨rfl, rfl, rfl⟩
  · obtain ⟨h1, h2, h3⟩ := preservesRes_completeZoomInvoke true
      { s with cameraOps := s.cameraOps ++
          [CameraOp.viewBoundingSphere c.target.sphere
            (some (c.captured.offset.getD (HPR.defaultOf c.target.sphere))),
           CameraOp.lookAtTransformIdentity] } p hp
    exact ⟨h1, h2, h3⟩

theorem preservesRes_runReadyCont (ok : Bool) (c : ReadyCont) :
    PreservesRes (runReadyCont ok c) := by
  intro s p hp
  unfold runReadyCont
  split
  · exact preservesRes_runVolumetricReady c s p hp
  · split
    · exact preservesRes_cancelZoom s p hp
    · exact ⟨rfl, rfl, rfl⟩

theorem preservesRes_runReadyConts (ok : Bool) (l : List ReadyCont) :
    PreservesRes (runReadyConts ok l) := by
  induction l with
  | nil => intro s p hp; exact ⟨rfl, rfl, rfl⟩
  | cons c t ih =>
    have : runReadyConts ok (c :: t) = fun s => runReadyConts ok t (runReadyCont ok c s) := rfl
    rw [this]
    exact preservesRes_comp (preservesRes_runReadyCont ok c) ih

theorem preservesRes_stepReadySettle (vid : Nat) (ok : Bool) :
    PreservesRes (stepReadySettle vid ok) := by
  intro s p hp
  unfold stepReadySettle
  exact preservesRes_runReadyConts ok _ _ p hp

theorem preservesRes_stepFlightEnd (fid : Nat) (value : Bool) :
    PreservesRes (stepFlightEnd fid value) := by
  intro s p hp
  unfold stepFlightEnd
  split
  · obtain ⟨h1, h2, h3⟩ := preservesRes_completeZoomInvoke value
      { s with flights := s.flights.filter (fun f => !(f == fid)) } p hp
    exact ⟨h1, h2, h3⟩
  · exact ⟨rfl, rfl, rfl⟩

theorem preservesRes_settleEntities (env : BSEnv) (zo : ZoomOptionsV) (l : List Entity) :
    PreservesRes (settleEntities env zo l) := by
  intro s p hp
  unfold settleEntities
  split
  · exact ⟨rfl, rfl, rfl⟩
  · split
    · exact preservesRes_cancelZoom s p hp
    · obtain ⟨a1, a2, a3⟩ := preservesRes_setTrackedEntity none s p hp
      simp only [invocationsFor] at a1 ⊢
      split
      · refine ⟨?_, ?_, ?_⟩
        · simp [completeZoomInvoke, clearZoom, List.filter_append, List.filter_cons, a2,
            Ne.symm hp, a1]
        · simp [completeZoomInvoke, clearZoom, a2]
        · simp [completeZoomInvoke, clearZoom, a3]
      · refine ⟨?_, ?_, ?_⟩
        · simp [clearZoom, a1]
        · simp [clearZoom, a2]
        · simp [clearZoom, a3]

theorem preservesRes_updateZoomTarget (env : BSEnv) :
    PreservesRes (updateZoomTarget env) := by
  intro s p hp
  unfold updateZoomTarget
  split
  · exact ⟨rfl, rfl, rfl⟩
  · split
    · exact ⟨rfl, rfl, rfl⟩
    · split
      · exact ⟨rfl, rfl, rfl⟩
      · exact preservesRes_settlePosition _ _ s p hp
      · exact preservesRes_settleEntities _ _ _ s p hp

theorem preservesRes_updateTrackedEntity (env : BSEnv) :
    PreservesRes (updateTrackedEntity env) := by
  intro s p hp
  unfold updateTrackedEntity
  refine ⟨?_, ?_, ?_⟩ <;> (repeat' split) <;>
    simp [invocationsFor, apply_ite ViewerState.invocations,
      apply_ite ViewerState.completeId, apply_ite ViewerState.nextPromiseId]

theorem preservesRes_postRender (env : BSEnv) : PreservesRes (postRender env) := by
  have : postRender env = fun s => updateTrackedEntity env (updateZoomTarget env s) := rfl
  rw [this]
  exact preservesRes_comp (preservesRes_updateZoomTarget env) (preservesRes_updateTrackedEntity env)

theorem preservesRes_onTickFollower (env : BSEnv) :
    PreservesRes (onTickFollower env) := by
  intro s p hp
  unfold onTickFollower
  refine ⟨?_, ?_, ?_⟩ <;> (repeat' split) <;> rfl

theorem preservesRes_onTick (env : BSEnv) (isUpdated : Bool) :
    PreservesRes (onTick env isUpdated) := by
  intro s p hp
  unfold onTick
  obtain ⟨h1, h2, h3⟩ := preservesRes_onTickFollower env
    (if s.allowSuspend then { s with clockCanAnimate := isUpdated } else s) p
    (by split <;> exact hp)
  refine ⟨?_, ?_, ?_⟩
  · rw [h1]
    split <;> rfl
  · rw [h2]
    split <;> rfl
  · rw [h3]
    split <;> rfl

theorem preservesRes_dataSourceRemovedTrackedPhase (ds : DataSource) :
    PreservesRes (dataSourceRemovedTrackedPhase ds) := by
  intro s p hp
  unfold dataSourceRemovedTrackedPhase
  split
  · split
    · exact preservesRes_setTrackedEntity none s p hp
    · exact ⟨rfl, rfl, rfl⟩
  · exact ⟨rfl, rfl, rfl⟩

theorem preservesRes_dataSourceRemovedSelectedPhase (ds : DataSource) :
    PreservesRes (dataSourceRemovedSelectedPhase ds) := by
  intro s p hp
  unfold dataSourceRemovedSelectedPhase
  split
  · split
    · exact preservesRes_setSelectedEntity none s p hp
    · exact ⟨rfl, rfl, rfl⟩
  · exact ⟨rfl, rfl, rfl⟩

theorem preservesRes_dataSourceRemoved (ds : DataSource) :
    PreservesRes (dataSourceRemoved ds) := by
  have : dataSourceRemoved ds =
      fun s => dataSourceRemovedSelectedPhase ds (dataSourceRemovedTrackedPhase ds s) := rfl
  rw [this]
  exact preservesRes_comp (preservesRes_dataSourceRemovedTrackedPhase ds)
    (preservesRes_dataSourceRemovedSelectedPhase ds)

theorem preservesRes_collectionChangedStep (r : Entity) :
    PreservesRes (collectionChangedStep r) := by
  have h1 : PreservesRes (fun s : ViewerState =>
      if s.trackedEntity = some r then setTrackedEntity none s else s) := by
    intro s p hp
    dsimp only
    split
    · exact preservesRes_setTrackedEntity none s p hp
    · exact ⟨rfl, rfl, rfl⟩
  have h2 : PreservesRes (fun s : ViewerState =>
      if s.selectedEntity = some r then setSelectedEntity none s else s) := by
    intro s p hp
    dsimp only
    split
    · exact preservesRes_setSelectedEntity none s p hp
    · exact ⟨rfl, rfl, rfl⟩
  have hcomp : collectionChangedStep r = fun s =>
      (fun s : ViewerState => if s.selectedEntity = some r then setSelectedEntity none s else s)
        ((fun s : ViewerState => if s.trackedEntity = some r then setTrackedEntity none s else s) s) := rfl
  rw [hcomp]
  exact preservesRes_comp h1 h2

theorem preservesRes_onEntityCollectionChanged (l : List Entity) :
    PreservesRes (onEntityCollectionChanged l) := by
  induction l with
  | nil => intro s p hp; exact ⟨rfl, rfl, rfl⟩
  | cons r t ih =>
    have : onEntityCollectionChanged (r :: t) =
        fun s => onEntityCollectionChanged t (collectionChangedStep r s) := rfl
    rw [this]
    exact preservesRes_comp (preservesRes_collectionChangedStep r) ih

theorem frozen_of_preserves {f : ViewerState → ViewerState} (hf : PreservesRes f)
    (s : ViewerState) (p : Nat) (h1 : p < s.completeId)
    (h2 : s.completeId ≤ s.nextPromiseId) :
    p < (f s).completeId ∧ (f s).completeId ≤ (f s).nextPromiseId ∧
    invocationsFor p (f s) = invocationsFor p s := by
  obtain ⟨i1, i2, i3⟩ := hf s p (Nat.ne_of_lt h1)
  exact ⟨by rw [i2]; exact h1, by rw [i2, i3]; exact h2, i1⟩

theorem step_frozen (ev : Ev) (s : ViewerState) (p : Nat)
    (h1 : p < s.completeId) (h2 : s.completeId ≤ s.nextPromiseId) :
    p < (step ev s).completeId ∧
    (step ev s).completeId ≤ (step ev s).nextPromiseId ∧
    invocationsFor p (step ev s) = invocationsFor p s := by
  have hne : p ≠ s.completeId := Nat.ne_of_lt h1
  cases ev with
  | callZoomTo tgt offset =>
    cases tgt with
    | none => exact ⟨h1, h2, rfl⟩
    | some t =>
      obtain ⟨c1, c2, c3⟩ := preservesRes_cancelZoom s p hne
      refine ⟨?_, ?_, ?_⟩
      · show p < (cancelZoom s).nextPromiseId
        rw [c3]
        exact Nat.lt_of_lt_of_le h1 h2
      · show (cancelZoom s).nextPromiseId ≤ (cancelZoom s).nextPromiseId + 1
        exact Nat.le_succ _
      · show invocationsFor p (cancelZoom s) = invocationsFor p s
        exact c1
  | callFlyTo tgt options =>
    cases tgt with
    | none => exact ⟨h1, h2, rfl⟩
    | some t =>
      obtain ⟨c1, c2, c3⟩ := preservesRes_cancelZoom s p hne
      refine ⟨?_, ?_, ?_⟩
      · show p < (cancelZoom s).nextPromiseId
        rw [c3]
        exact Nat.lt_of_lt_of_le h1 h2
      · show (cancelZoom s).nextPromiseId ≤ (cancelZoom s).nextPromiseId + 1
        exact Nat.le_succ _
      · show invocationsFor p (cancelZoom s) = invocationsFor p s
        exact c1
  | normalizeNext => exact frozen_of_preserves preservesRes_runNormalizeTask s p h1 h2
  | renderPass env => exact frozen_of_preserves (preservesRes_postRender env) s p h1 h2
  | readySettle vid ok => exact frozen_of_preserves (preservesRes_stepReadySettle vid ok) s p h1 h2
  | flightComplete fid => exact frozen_of_preserves (preservesRes_stepFlightEnd fid true) s p h1 h2
  | flightCancel fid => exact frozen_of_preserves (preservesRes_stepFlightEnd fid false) s p h1 h2
  | clockTick env isUpdated => exact frozen_of_preserves (preservesRes_onTick env isUpdated) s p h1 h2
  | assignTracked v => exact frozen_of_preserves (preservesRes_setTrackedEntity v) s p h1 h2
  | assignSelected v => exact frozen_of_preserves (preservesRes_setSelectedEntity v) s p h1 h2
  | removeDataSource ds => exact frozen_of_preserves (preservesRes_dataSourceRemoved ds) s p h1 h2
  | collectionChanged removed =>
      exact frozen_of_preserves (preservesRes_onEntityCollectionChanged removed) s p h1 h2
  | dataSourceLoaded dsid => exact frozen_of_preserves (preservesRes_stepDataSourceLoaded dsid) s p h1 h2
  | mutateArray r l => exact ⟨h1, h2, rfl⟩

theorem run_frozen (evs : List Ev) : ∀ (s : ViewerState) (p : Nat),
    p < s.completeId → s.completeId ≤ s.nextPromiseId →
    invocationsFor p (run evs s) = invocationsFor p s := by
  induction evs with
  | nil => intro s p _ _; rfl
  | cons e t ih =>
    intro s p h1 h2
    obtain ⟨g1, g2, g3⟩ := step_frozen e s p h1 h2
    have hrun : run (e :: t) s = run t (step e s) := rfl
    rw [hrun, ih (step e s) p g1 g2, g3]

theorem find?_eq_head?_filter {α : Type} (f : α → Bool) (l : List α) :
    l.find? f = (l.filter f).head? := by
  induction l with
  | nil => rfl
  | cons a t ih =>
    cases hf : f a
    · rw [List.find?_cons_of_neg t (by simp [hf]), List.filter_cons, hf]
      simp only [Bool.false_eq_true, if_false]
      exact ih
    · rw [List.find?_cons_of_pos t hf, List.filter_cons, hf]
      simp only [if_pos]
      rfl

theorem settles_eq_head_invocationsFor (p : Nat) (x : ViewerState) :
    settles p x = ((invocationsFor p x).head?).map (fun i => i.2) := by
  unfold settles invocationsFor
  rw [find?_eq_head?_filter]

/-- C1 as amended: when a requestView call is made while the previous
request is still installed (its promise is still the one held in
_zoomPromise, hence its resolver is the installed _completeZoom and it has
not been invoked yet), the call resolves that promise false exactly once,
at call time, and no later event of any kind ever invokes that resolver
again; in particular a superseded-while-installed request can never settle
true.  This leaves exactly the behaviors the counterexample exhibits
outside the guarantee: a request whose settlement already started a camera
flight has a cleared _zoomPromise, so a later call does not resolve it and
it can stay unresolved forever, and a request that already settled before
the next call keeps whatever value it settled with. -/
theorem requestView_supersede_resolves_false_once (s : ViewerState) (p : Nat)
    (c : Ev) (evs : List Ev)
    (hcall : isCallEv c = true)
    (hp : s.zoomPromise = some p)
    (hcid : s.completeId = p)
    (hlt : s.completeId < s.nextPromiseId)
    (hun : invocationsFor p s = []) :
    invocationsFor p (run evs (step c s)) = [(p, false)] ∧
    settles p (run evs (step c s)) = some false := by
  have hcz : cancelZoom s = completeZoomInvoke false (clearZoom s) :=
    cancelZoom_isSome s (by rw [hp]; rfl)
  have key : invocationsFor p (step c s) = [(p, false)] ∧
      p < (step c s).completeId ∧
      (step c s).completeId ≤ (step c s).nextPromiseId := by
    have hinvGen : invocationsFor p (cancelZoom s) = [(p, false)] := by
      rw [hcz]
      have hstep : invocationsFor p (completeZoomInvoke false (clearZoom s)) =
          invocationsFor p s ++ List.filter (fun i => i.1 == p) [(s.completeId, false)] := by
        simp only [invocationsFor, completeZoomInvoke, clearZoom]
        exact List.filter_append _ _
      rw [hstep, hun, hcid]
      simp [List.filter_cons]
    have hnpi : (cancelZoom s).nextPromiseId = s.nextPromiseId := cancelZoom_nextPromiseId s
    cases c with
    | callZoomTo tgt offset =>
      cases tgt with
      | none => simp [isCallEv] at hcall
      | some t =>
        refine ⟨?_, ?_, ?_⟩
        · show invocationsFor p (cancelZoom s) = [(p, false)]
          exact hinvGen
        · show p < (cancelZoom s).nextPromiseId
          rw [hnpi, ← hcid]
          exact hlt
        · show (cancelZoom s).nextPromiseId ≤ (cancelZoom s).nextPromiseId + 1
          exact Nat.le_succ _
    | callFlyTo tgt options =>
      cases tgt with
      | none => simp [isCallEv] at hcall
      | some t =>
        refine ⟨?_, ?_, ?_⟩
        · show invocationsFor p (cancelZoom s) = [(p, false)]
          exact hinvGen
        · show p < (cancelZoom s).nextPromiseId
          rw [hnpi, ← hcid]
          exact hlt
        · show (cancelZoom s).nextPromiseId ≤ (cancelZoom s).nextPromiseId + 1
          exact Nat.le_succ _
    | normalizeNext => simp [isCallEv] at hcall
    | renderPass env => simp [isCallEv] at hcall
    | readySettle vid ok => simp [isCallEv] at hcall
    | flightComplete fid => simp [isCallEv] at hcall
    | flightCancel fid => simp [isCallEv] at hcall
    | clockTick env isUpdated => simp [isCallEv] at hcall
    | assignTracked v => simp [isCallEv] at hcall
    | assignSelected v => simp [isCallEv] at hcall
    | removeDataSource ds => simp [isCallEv] at hcall
    | collectionChanged removed => simp [isCallEv] at hcall
    | dataSourceLoaded dsid => simp [isCallEv] at hcall
    | mutateArray r l => simp [isCallEv] at hcall
  obtain ⟨k1, k2, k3⟩ := key
  have hrun := run_frozen evs (step c s) p k2 k3
  refine ⟨by rw [hrun, k1], ?_⟩
  rw [settles_eq_head_invocationsFor, hrun, k1]
  rfl

/-- A viewer state with an installed, still unresolved zoom promise. -/
def c1state : ViewerState :=
  run [Ev.callFlyTo (some (RawTarget.singleEntity ⟨1, 1, some (some 2)⟩)) none,
       Ev.normalizeNext] initState

/-- Closed instance of the amended C1 theorem: superseding the installed
request resolves its promise false exactly once, and it stays so across a
later normalization, a settling render pass and a flight callback. -/
theorem requestView_supersede_resolves_false_once_witness :
    invocationsFor 1 (run
      [Ev.normalizeNext,
       Ev.renderPass [(⟨1, 1, some (some 2)⟩, BSRes.done 5)],
       Ev.flightComplete 1]
      (step (Ev.callZoomTo (some (RawTarget.singleEntity ⟨1, 1, some (some 2)⟩)) none)
        c1state)) = [(1, false)] ∧
    settles 1 (run
      [Ev.normalizeNext,
       Ev.renderPass [(⟨1, 1, some (some 2)⟩, BSRes.done 5)],
       Ev.flightComplete 1]
      (step (Ev.callZoomTo (some (RawTarget.singleEntity ⟨1, 1, some (some 2)⟩)) none)
        c1state)) = some false :=
  requestView_supersede_resolves_false_once c1state 1
    (Ev.callZoomTo (some (RawTarget.singleEntity ⟨1, 1, some (some 2)⟩)) none)
    [Ev.normalizeNext,
     Ev.renderPass [(⟨1, 1, some (some 2)⟩, BSRes.done 5)],
     Ev.flightComplete 1]
    (by decide) (by decide) (by decide) (by decide) (by decide)

/-- The trace of the C1 counterexample: a flight request settles (the
flight starts and the installed promise is cleared while still
unresolved), a second call is then made, normalizes, settles, and the first
flight eventually completes. -/
def c1trace : List Ev :=
  [Ev.callFlyTo (some (RawTarget.singleEntity ⟨1, 1, some (some 2)⟩)) none,
   Ev.normalizeNext,
   Ev.renderPass [(⟨1, 1, some (some 2)⟩, BSRes.done 5)],
   Ev.callZoomTo (some (RawTarget.singleEntity ⟨1, 1, some (some 2)⟩)) none,
   Ev.normalizeNext,
   Ev.renderPass [(⟨1, 1, some (some 2)⟩, BSRes.done 5)],
   Ev.flightComplete 1]

/-- Counterexample to C1 as stated: on the c1trace run the outcome of the
first call was still unresolved when the second call was made, yet it is
never resolved at all; the trace violates the sequencing specification
because the second call found no installed promise to cancel (the flight
settlement had already cleared it), and the flight callbacks invoke
whatever resolver is current when they fire, which by then belongs to the
second call. -/
theorem requestView_sequencing_claim_counterexample :
    ¬ RequestViewSequencingSpec c1trace ∧
    (1 : Nat) ∈ traceObligations c1trace initState ∧
    settles 1 (run c1trace initState) = none ∧
    settles 2 (run c1trace initState) = some true := by
  refine ⟨?_, by decide, by decide, by decide⟩
  intro h
  have h1 : (1 : Nat) ∈ traceObligations c1trace initState := by decide
  have h2 := h.2 1 h1
  have h3 : settles 1 (run c1trace initState) = none := by decide
  rw [h3] at h2
  cases h2
